import Mathlib

/-! CargoCoin Proof-of-Safe-Driving: driving score, validation, block binding,
retargeting and score preview.

A shallow embedding of `src/primitives/drivingdata.{h,cpp}`,
`src/primitives/block.h`, `src/posd.cpp` and the `calculatedrivingscore` handler
of `src/rpc/driving.cpp`.

Unsigned machine integers are natural numbers; every 32-bit unsigned operation
of the source is reduced modulo `2 ^ 32` explicitly.  Operations the C++
performs in `int` after integer promotion of a `uint8_t`/`uint16_t` operand are
exact on the ranges of those types, and are written without reduction.  Signed
`int` and `int64_t` values are integers; a signed operation that overflows and a
division whose divisor is zero have no result: functions that can reach one
return `Option`.
-/

namespace CargoCoin

/-! ## Machine arithmetic -/

/-- Reduction of a natural number to `uint32_t`. -/
def u32 (x : Nat) : Nat := x % 2 ^ 32

/-- Multiplication of two `uint32_t` values. -/
def mul32 (a b : Nat) : Nat := u32 (a * b)

/-- Addition of two `uint32_t` values. -/
def add32 (a b : Nat) : Nat := u32 (a + b)

/-- Subtraction of two `uint32_t` values (wraps below zero). -/
def sub32 (a b : Nat) : Nat := u32 (a + 2 ^ 32 - u32 b)

/-- Division of two `uint32_t` values; undefined for a zero divisor. -/
def div32 (a b : Nat) : Option Nat := if b = 0 then none else some (a / b)

/-! ## Data model (`primitives/drivingdata.h`) -/

/-- The class `CDrivingData`.  A `uint256` is the number it encodes, so that
`uint256::IsNull` is equality with zero; the signature is its list of bytes. -/
structure CDrivingData where
  latitude : Int
  longitude : Int
  distance : Nat
  duration : Nat
  avgSpeed : Nat
  maxSpeed : Nat
  hardBrakes : Nat
  hardAccel : Nat
  speedViolations : Nat
  routeHash : Nat
  driverPubKeyHash : Nat
  sessionStart : Nat
  signature : List Nat
  deriving DecidableEq, Repr

/-- The struct `SafeDrivingParams`. -/
structure SafeDrivingParams where
  maxSpeedLimit : Nat
  idealSpeedRange : Nat
  minDistance : Nat
  minDuration : Nat
  maxHardBrakes : Nat
  maxHardAccel : Nat
  maxSpeedViolations : Nat
  targetBlockSpacing : Int
  difficultyAdjustmentInterval : Int
  deriving DecidableEq, Repr

namespace CDrivingData

/-- Every field holds a value of its declared C++ type: `int32_t` coordinates,
`uint32_t` distance, duration and session start, `uint16_t` speeds and brake and
acceleration counts, `uint8_t` violations, `uint256` hashes, byte signature. -/
def InRange (r : CDrivingData) : Prop :=
  (-(2 : Int) ^ 31 ≤ r.latitude ∧ r.latitude < 2 ^ 31) ∧
  (-(2 : Int) ^ 31 ≤ r.longitude ∧ r.longitude < 2 ^ 31) ∧
  r.distance < 2 ^ 32 ∧ r.duration < 2 ^ 32 ∧
  r.avgSpeed < 2 ^ 16 ∧ r.maxSpeed < 2 ^ 16 ∧
  r.hardBrakes < 2 ^ 16 ∧ r.hardAccel < 2 ^ 16 ∧
  r.speedViolations < 2 ^ 8 ∧
  r.routeHash < 2 ^ 256 ∧ r.driverPubKeyHash < 2 ^ 256 ∧
  r.sessionStart < 2 ^ 32 ∧
  ∀ b ∈ r.signature, b < 2 ^ 8

instance (r : CDrivingData) : Decidable r.InRange := by
  unfold InRange; infer_instance

/-- `CDrivingData::SetNull`, as the value it leaves in the object; it is also
the value of a freshly constructed record. -/
def SetNull : CDrivingData :=
  { latitude := 0, longitude := 0, distance := 0, duration := 0,
    avgSpeed := 0, maxSpeed := 0, hardBrakes := 0, hardAccel := 0,
    speedViolations := 0, routeHash := 0, driverPubKeyHash := 0,
    sessionStart := 0, signature := [] }

/-- `CDrivingData::IsNull`. -/
def IsNull (r : CDrivingData) : Bool :=
  r.distance == 0 && r.duration == 0

/-- `CDrivingData::IsValid` (drivingdata.cpp, lines 65-102).  The result is
`none` exactly when the speed sanity check divides by zero. -/
def IsValid (r : CDrivingData) : Option Bool :=
  if r.IsNull then some false
  else if r.distance < 1000 then some false
  else if r.duration < 120 then some false
  else if r.maxSpeed > 1500 then some false
  else if r.routeHash = 0 then some false
  else if r.driverPubKeyHash = 0 then some false
  else if r.signature.isEmpty then some false
  else if r.avgSpeed > r.maxSpeed then some false
  else if r.duration > 0 then
    (div32 (mul32 r.distance 36) (mul32 r.duration 10)).map fun calculatedSpeed =>
      if calculatedSpeed > r.avgSpeed * 12 / 10 ∨ calculatedSpeed < r.avgSpeed * 8 / 10 then
        false
      else
        true
  else some true

/-- Lines 24-29: penalty for exceeding the speed limit. -/
def maxSpeedStep (r : CDrivingData) (score : Nat) : Nat :=
  if r.maxSpeed > 800 then
    let overspeed := u32 ((r.maxSpeed - 800) / 10)
    if mul32 overspeed 50 > score then 0 else sub32 score (mul32 overspeed 50)
  else score

/-- Lines 31-35: penalty for an average speed that is too high. -/
def avgSpeedStep (r : CDrivingData) (score : Nat) : Nat :=
  if r.avgSpeed > 800 then
    let overspeed := u32 ((r.avgSpeed - 800) / 10)
    if mul32 overspeed 30 > score then 0 else sub32 score (mul32 overspeed 30)
  else score

/-- Lines 37-40: bonus for maintaining the ideal speed. -/
def idealSpeedStep (r : CDrivingData) (score : Nat) : Nat :=
  if r.avgSpeed ≥ 600 ∧ r.avgSpeed ≤ 700 then min (add32 score 100) 1000 else score

/-- Lines 42-44: penalty for hard braking events. -/
def brakeStep (r : CDrivingData) (score : Nat) : Nat :=
  let brakePenalty := u32 (r.hardBrakes * 20)
  if brakePenalty > score then 0 else sub32 score brakePenalty

/-- Lines 46-48: penalty for hard acceleration events. -/
def accelStep (r : CDrivingData) (score : Nat) : Nat :=
  let accelPenalty := u32 (r.hardAccel * 15)
  if accelPenalty > score then 0 else sub32 score accelPenalty

/-- Lines 50-52: penalty for speed violations. -/
def violationStep (r : CDrivingData) (score : Nat) : Nat :=
  let violationPenalty := u32 (r.speedViolations * 100)
  if violationPenalty > score then 0 else sub32 score violationPenalty

/-- Line 55: the variable `distanceBonus`. -/
def distanceBonus (r : CDrivingData) : Nat :=
  min (mul32 (r.distance / 1000) 10) 200

/-- Lines 54-56: bonus for longer distance. -/
def distanceStep (r : CDrivingData) (score : Nat) : Nat :=
  min (add32 score r.distanceBonus) 1000

/-- Line 59: the variable `durationBonus`. -/
def durationBonus (r : CDrivingData) : Nat :=
  min (mul32 (r.duration / 60) 5) 100

/-- Lines 58-60: bonus for longer duration. -/
def durationStep (r : CDrivingData) (score : Nat) : Nat :=
  min (add32 score r.durationBonus) 1000

/-- The successive values of the local variable `score` in
`CalculateDrivingScore` once `IsValid` has accepted: its initial value, then its
value after each of the eight updates, in source order. -/
def runningScores (r : CDrivingData) : List Nat :=
  let s1 := 1000
  let s2 := r.maxSpeedStep s1
  let s3 := r.avgSpeedStep s2
  let s4 := r.idealSpeedStep s3
  let s5 := r.brakeStep s4
  let s6 := r.accelStep s5
  let s7 := r.violationStep s6
  let s8 := r.distanceStep s7
  let s9 := r.durationStep s8
  [s1, s2, s3, s4, s5, s6, s7, s8, s9]

/-- Lines 22-62 of `CalculateDrivingScore`: the value of `score` at `return`. -/
def scoreBody (r : CDrivingData) : Nat :=
  r.durationStep (r.distanceStep (r.violationStep (r.accelStep (r.brakeStep
    (r.idealSpeedStep (r.avgSpeedStep (r.maxSpeedStep 1000)))))))

/-- `CDrivingData::CalculateDrivingScore` (drivingdata.cpp, lines 18-63). -/
def CalculateDrivingScore (r : CDrivingData) : Option Nat :=
  match r.IsValid with
  | none => none
  | some valid => if !valid then some 0 else some r.scoreBody

end CDrivingData

open CDrivingData

/-! ## Validation (`posd.cpp`) -/

/-- `CheckProofOfSafeDriving` (posd.cpp, lines 18-69).  The comparisons between
fields of different widths are made after the usual arithmetic conversions,
which preserve the values compared. -/
def CheckProofOfSafeDriving (drivingData : CDrivingData) (params : SafeDrivingParams) :
    Option Bool :=
  match drivingData.IsValid with
  | none => none
  | some valid =>
    if !valid then some false
    else if drivingData.distance < params.minDistance then some false
    else if drivingData.duration < params.minDuration then some false
    else if drivingData.maxSpeed > params.maxSpeedLimit then some false
    else if drivingData.hardBrakes > params.maxHardBrakes then some false
    else if drivingData.hardAccel > params.maxHardAccel then some false
    else if drivingData.speedViolations > params.maxSpeedViolations then some false
    else some true

/-- `ValidateDrivingDataSignature` (posd.cpp, lines 71-97). -/
def ValidateDrivingDataSignature (drivingData : CDrivingData) : Bool :=
  if drivingData.signature.isEmpty then false
  else if drivingData.signature.length < 64 ∨ drivingData.signature.length > 80 then false
  else true

/-- The constructor `SafeDrivingParams::SafeDrivingParams` (drivingdata.h, lines 125-136). -/
def defaultParams : SafeDrivingParams :=
  { maxSpeedLimit := 800, idealSpeedRange := 650, minDistance := 1000, minDuration := 120,
    maxHardBrakes := 5, maxHardAccel := 5, maxSpeedViolations := 0,
    targetBlockSpacing := 300, difficultyAdjustmentInterval := 2016 }

/-! ## Signed machine arithmetic -/

/-- The result of an `int` operation whose exact value is `x`.  Signed overflow
is undefined: it has no result. -/
def i32 (x : Int) : Option Int :=
  if -(2 : Int) ^ 31 ≤ x ∧ x < 2 ^ 31 then some x else none

/-- The result of an `int64_t` operation whose exact value is `x`.  Signed
overflow is undefined: it has no result. -/
def i64 (x : Int) : Option Int :=
  if -(2 : Int) ^ 63 ≤ x ∧ x < 2 ^ 63 then some x else none

/-- Division of two `int64_t` values: the quotient truncated toward zero;
undefined for a zero divisor and when the quotient overflows. -/
def div64 (a b : Int) : Option Int :=
  if b = 0 then none else i64 (Int.tdiv a b)

/-- Remainder of two `int64_t` values, with the sign of the dividend; undefined
whenever the quotient is. -/
def mod64 (a b : Int) : Option Int :=
  (div64 a b).map fun _ => Int.tmod a b

/-- Conversion of an `int64_t` value to `uint32_t`. -/
def toU32 (x : Int) : Nat := (x % 2 ^ 32).toNat

/-- Conversion of an `int64_t` value to `int`: the value modulo `2 ^ 32` in the
range of `int`. -/
def toI32 (x : Int) : Int := (x + 2 ^ 31) % 2 ^ 32 - 2 ^ 31

/-! ## The chain (`chain.h`, `primitives/block.h`) -/

/-- Modelled from the spec: the class `CBlockIndex` (chain.h) is not among the
sources.  The retargeting code reads from a block index its height `nHeight`, an
`int`, and the `int64_t` value of `GetBlockTime()`; the specification (section 3,
ChainHeightSample) describes them as the height and block timestamp that the
chain index supplies.  The ancestor lookup `GetAncestor` is a parameter of
`GetNextRequiredDrivingScore`, a null pointer being `none`. -/
structure CBlockIndex where
  nHeight : Int
  GetBlockTime : Int
  deriving DecidableEq, Repr

/-- The class `CBlockHeader` (primitives/block.h, lines 23-75). -/
structure CBlockHeader where
  nVersion : Int
  hashPrevBlock : Nat
  hashMerkleRoot : Nat
  nTime : Nat
  nBits : Nat
  nNonce : Nat
  hashDrivingData : Nat
  drivingScore : Nat
  deriving DecidableEq, Repr

/-- The class `CBlock` (primitives/block.h, lines 78-135).  The transactions
are values of a type `Tx` that the binding checks never inspect. -/
structure CBlock (Tx : Type) extends CBlockHeader where
  vtx : List Tx
  drivingData : CDrivingData
  fChecked : Bool
  m_checked_witness_commitment : Bool
  m_checked_merkle_root : Bool
  m_checked_driving_data : Bool

/-! ## Block binding and retargeting (`posd.cpp`) -/

/-- `CheckDrivingDataHash` (posd.cpp, lines 99-112).  `CDrivingData::GetHash`
hashes the serialized record with `HashWriter`, which is not among the sources:
it is the parameter `GetHash`, a function of the record. -/
def CheckDrivingDataHash {Tx : Type} (GetHash : CDrivingData → Nat) (block : CBlock Tx) : Bool :=
  let calculatedHash := GetHash block.drivingData
  if calculatedHash ≠ block.hashDrivingData then false else true

/-- `VerifyDrivingScore` (posd.cpp, lines 114-127). -/
def VerifyDrivingScore {Tx : Type} (block : CBlock Tx) : Option Bool :=
  match block.drivingData.CalculateDrivingScore with
  | none => none
  | some calculatedScore =>
    if calculatedScore ≠ block.drivingScore then some false else some true

/-- `CalculateNextRequiredDrivingScore` (posd.cpp, lines 154-199). -/
def CalculateNextRequiredDrivingScore (pindexLast : CBlockIndex) (nFirstBlockTime : Int)
    (params : SafeDrivingParams) : Option Nat := do
  let nActualTimespan ← i64 (pindexLast.GetBlockTime - nFirstBlockTime)
  let nTargetTimespan ← i64 (params.targetBlockSpacing * params.difficultyAdjustmentInterval)
  let baseRequiredScore : Nat := 500
  let quarter ← div64 nTargetTimespan 4
  let nActualTimespan := if nActualTimespan < quarter then quarter else nActualTimespan
  let fourfold ← i64 (nTargetTimespan * 4)
  let nActualTimespan := if nActualTimespan > fourfold then fourfold else nActualTimespan
  let newRequiredScore ←
    if nActualTimespan < nTargetTimespan then do
      let scaled ← i64 (nTargetTimespan * 100)
      let ratio ← div64 scaled nActualTimespan
      let adjustment := toU32 ratio
      pure (mul32 baseRequiredScore adjustment / 100)
    else do
      let scaled ← i64 (nActualTimespan * 100)
      let ratio ← div64 scaled nTargetTimespan
      let adjustment := toU32 ratio
      div32 (mul32 baseRequiredScore 100) adjustment
  let newRequiredScore := if newRequiredScore < 200 then 200 else newRequiredScore
  let newRequiredScore := if newRequiredScore > 900 then 900 else newRequiredScore
  pure newRequiredScore

/-- `GetNextRequiredDrivingScore` (posd.cpp, lines 129-152). -/
def GetNextRequiredDrivingScore (pindexLast : CBlockIndex)
    (GetAncestor : Int → Option CBlockIndex) (params : SafeDrivingParams) : Option Nat := do
  let baseRequiredScore : Nat := 500
  let nextHeight ← i32 (pindexLast.nHeight + 1)
  let remainder ← mod64 nextHeight params.difficultyAdjustmentInterval
  if remainder ≠ 0 then
    pure baseRequiredScore
  else do
    let back ← i64 (params.difficultyAdjustmentInterval - 1)
    let heightFirst ← i64 (pindexLast.nHeight - back)
    let nHeightFirst := toI32 heightFirst
    if nHeightFirst < 0 then
      pure baseRequiredScore
    else
      match GetAncestor nHeightFirst with
      | none => pure baseRequiredScore
      | some pindexFirst =>
        CalculateNextRequiredDrivingScore pindexLast pindexFirst.GetBlockTime params

/-- Lines 157-172 of `CalculateNextRequiredDrivingScore`: the values of
`nActualTimespan`, once both clamps are applied, and of `nTargetTimespan`. -/
def clampedActualTimespan (pindexLast : CBlockIndex) (nFirstBlockTime : Int)
    (params : SafeDrivingParams) : Option (Int × Int) := do
  let nActualTimespan ← i64 (pindexLast.GetBlockTime - nFirstBlockTime)
  let nTargetTimespan ← i64 (params.targetBlockSpacing * params.difficultyAdjustmentInterval)
  let quarter ← div64 nTargetTimespan 4
  let nActualTimespan := if nActualTimespan < quarter then quarter else nActualTimespan
  let fourfold ← i64 (nTargetTimespan * 4)
  let nActualTimespan := if nActualTimespan > fourfold then fourfold else nActualTimespan
  pure (nActualTimespan, nTargetTimespan)

/-- Line 187 of `CalculateNextRequiredDrivingScore`: the variable `adjustment`
of the branch taken when blocks are on time or too slow, the divisor of line 188. -/
def slowAdjustment (nActualTimespan nTargetTimespan : Int) : Option Nat := do
  let scaled ← i64 (nActualTimespan * 100)
  let ratio ← div64 scaled nTargetTimespan
  pure (toU32 ratio)

/-! ## Score preview (`rpc/driving.cpp`) -/

/-- The rating string of the `calculatedrivingscore` result. -/
inductive Rating where
  | Excellent
  | Good
  | Fair
  | Poor
  deriving DecidableEq, Repr

/-- The result object of the `calculatedrivingscore` RPC. -/
structure ScorePreview where
  score : Nat
  rating : Rating
  wouldBeAccepted : Bool
  deriving DecidableEq, Repr

/-- The handler of the `calculatedrivingscore` RPC (rpc/driving.cpp, lines
190-260), for request parameters that `getInt` has accepted.  The consensus
parameters of the running chain are the argument `params`. -/
def calculatedrivingscore (params : SafeDrivingParams)
    (distance duration avgSpeed maxSpeed hardBrakes hardAccel speedViolations : Nat) :
    Option ScorePreview :=
  let drivingData : CDrivingData :=
    { SetNull with
      distance := distance, duration := duration, avgSpeed := avgSpeed, maxSpeed := maxSpeed,
      hardBrakes := hardBrakes, hardAccel := hardAccel, speedViolations := speedViolations,
      routeHash := 0, driverPubKeyHash := 0, sessionStart := 0 }
  match drivingData.CalculateDrivingScore with
  | none => none
  | some score =>
    some
      { score := score
        rating :=
          if score ≥ 900 then Rating.Excellent
          else if score ≥ 700 then Rating.Good
          else if score ≥ 500 then Rating.Fair
          else Rating.Poor
        wouldBeAccepted :=
          decide (drivingData.distance ≥ params.minDistance ∧
            drivingData.duration ≥ params.minDuration ∧
            drivingData.maxSpeed ≤ params.maxSpeedLimit ∧
            drivingData.hardBrakes ≤ params.maxHardBrakes ∧
            drivingData.hardAccel ≤ params.maxHardAccel ∧
            drivingData.speedViolations ≤ params.maxSpeedViolations) }

/-! ## The scoring steps in another order -/

/-- The scoring steps of `CalculateDrivingScore` with the distance and duration
bonus steps applied before the three penalty steps for hard brakes, hard
accelerations and speed violations, instead of after them. -/
def reorderedScoreBody (r : CDrivingData) : Nat :=
  r.violationStep (r.accelStep (r.brakeStep (r.durationStep (r.distanceStep
    (r.idealSpeedStep (r.avgSpeedStep (r.maxSpeedStep 1000)))))))

/-! ## The retargeting algorithm as the specification words it (section 4.3) -/

/-- Clamp `x` into `[lo, hi]`. -/
def clamp (x lo hi : Int) : Int := min (max x lo) hi

/-- Step 2 of section 4.3: the actual timespan clamped into
`[targetTimespan/4, targetTimespan*4]`. -/
def clampedTimespan (T actual : Int) : Int :=
  clamp actual (Int.tdiv T 4) (T * 4)

/-- Steps 2 to 5 of section 4.3 over exact integers with truncating division,
for a target timespan `T` and an actual timespan `actual`. -/
def specNextRequiredScore (T actual : Int) : Int :=
  let a := clampedTimespan T actual
  let s :=
    if a < T then Int.tdiv (500 * Int.tdiv (T * 100) a) 100
    else Int.tdiv (500 * 100) (Int.tdiv (a * 100) T)
  clamp s 200 900

/-! ## The scoring algorithm as the specification words it (section 4.2) -/

/-- Step 2 of the specification: if `maxSpeed > 800`, subtract
`((maxSpeed-800)/10)*50`, floor at 0. -/
def specStep2 (r : CDrivingData) (s : Int) : Int :=
  if (r.maxSpeed : Int) > 800 then max 0 (s - (((r.maxSpeed : Int) - 800) / 10) * 50) else s

/-- Step 3 of the specification: if `avgSpeed > 800`, subtract
`((avgSpeed-800)/10)*30`, floor at 0. -/
def specStep3 (r : CDrivingData) (s : Int) : Int :=
  if (r.avgSpeed : Int) > 800 then max 0 (s - (((r.avgSpeed : Int) - 800) / 10) * 30) else s

/-- Step 4 of the specification: if `600 <= avgSpeed <= 700`, add 100, cap at 1000. -/
def specStep4 (r : CDrivingData) (s : Int) : Int :=
  if 600 ≤ (r.avgSpeed : Int) ∧ (r.avgSpeed : Int) ≤ 700 then min (s + 100) 1000 else s

/-- Step 5 of the specification: subtract `hardBrakes * 20`, floor at 0. -/
def specStep5 (r : CDrivingData) (s : Int) : Int :=
  max 0 (s - (r.hardBrakes : Int) * 20)

/-- Step 6 of the specification: subtract `hardAccel * 15`, floor at 0. -/
def specStep6 (r : CDrivingData) (s : Int) : Int :=
  max 0 (s - (r.hardAccel : Int) * 15)

/-- Step 7 of the specification: subtract `speedViolations * 100`, floor at 0. -/
def specStep7 (r : CDrivingData) (s : Int) : Int :=
  max 0 (s - (r.speedViolations : Int) * 100)

/-- Step 8 of the specification: add `min((distance/1000)*10, 200)`, cap at 1000. -/
def specStep8 (r : CDrivingData) (s : Int) : Int :=
  min (s + min (((r.distance : Int) / 1000) * 10) 200) 1000

/-- Step 9 of the specification: add `min((duration/60)*5, 100)`, cap at 1000. -/
def specStep9 (r : CDrivingData) (s : Int) : Int :=
  min (s + min (((r.duration : Int) / 60) * 5) 100) 1000

/-- The nine-step result of the specification over unbounded integers: start at
1000 and apply steps 2 to 9 in order.  Every dividend is non-negative, so the
division truncates. -/
def specScore (r : CDrivingData) : Int :=
  specStep9 r (specStep8 r (specStep7 r (specStep6 r (specStep5 r
    (specStep4 r (specStep3 r (specStep2 r 1000)))))))

/-- The exact value of the difference in `(penalty > score) ? 0 : score - penalty`.
The difference is evaluated only when the penalty does not exceed the score;
otherwise it counts as 0 here. -/
def exactDifference (score penalty : Nat) : Int :=
  if penalty > score then 0 else (score : Int) - (penalty : Int)

/-- The exact values, before any reduction modulo `2 ^ 32`, of the products,
differences and sums that lines 22-62 of `CalculateDrivingScore` evaluate, in
source order. -/
def exactIntermediates (r : CDrivingData) : List Int :=
  let s2 := r.maxSpeedStep 1000
  let s3 := r.avgSpeedStep s2
  let s4 := r.idealSpeedStep s3
  let s5 := r.brakeStep s4
  let s6 := r.accelStep s5
  let s7 := r.violationStep s6
  let s8 := r.distanceStep s7
  [ ((r.maxSpeed - 800) / 10 * 50 : Nat),
    exactDifference 1000 (mul32 (u32 ((r.maxSpeed - 800) / 10)) 50),
    ((r.avgSpeed - 800) / 10 * 30 : Nat),
    exactDifference s2 (mul32 (u32 ((r.avgSpeed - 800) / 10)) 30),
    (s3 + 100 : Nat),
    (r.hardBrakes * 20 : Nat),
    exactDifference s4 (u32 (r.hardBrakes * 20)),
    (r.hardAccel * 15 : Nat),
    exactDifference s5 (u32 (r.hardAccel * 15)),
    (r.speedViolations * 100 : Nat),
    exactDifference s6 (u32 (r.speedViolations * 100)),
    (r.distance / 1000 * 10 : Nat),
    (s7 + r.distanceBonus : Nat),
    (r.duration / 60 * 5 : Nat),
    (s8 + r.durationBonus : Nat) ]

/-! ## Concrete records -/

/-- A record with the given seven metrics, as the scenarios describe them. -/
def mkRecord (distance duration avgSpeed maxSpeed hardBrakes hardAccel speedViolations : Nat) :
    CDrivingData :=
  { latitude := 0, longitude := 0, distance := distance, duration := duration,
    avgSpeed := avgSpeed, maxSpeed := maxSpeed, hardBrakes := hardBrakes,
    hardAccel := hardAccel, speedViolations := speedViolations, routeHash := 1,
    driverPubKeyHash := 1, sessionStart := 0, signature := [0] }

/-- Scenario A of the specification. -/
def scenarioA : CDrivingData := mkRecord 5000 600 650 750 2 1 0

/-- A record of the declared field types whose duration is `2 ^ 31`, so that
`duration * 10` is a multiple of `2 ^ 32`. -/
def zeroDivisorRecord : CDrivingData := mkRecord 1000 2147483648 0 0 0 0 0

/-- A record whose computed speed is 0 while its declared average speed is 1. -/
def truncationRecord : CDrivingData := mkRecord 1000 3601 1 1 0 0 0

/-- A record whose 32-bit product `distance * 36` wraps around to 32. -/
def wrappingRecord : CDrivingData := mkRecord 119304648 120 0 0 0 0 0

/-- A record whose computed speed, 36, equals its declared `avgSpeed`. -/
def steadyRecord : CDrivingData := mkRecord 6000 600 36 40 1 1 0

/-- A record that meets every default threshold but has a null route hash. -/
def unroutedRecord : CDrivingData := { mkRecord 5000 600 30 750 2 1 0 with routeHash := 0 }

/-- Scenario C of the specification. -/
def scenarioC : CDrivingData := mkRecord 20000 1200 900 900 0 0 1

/-- A block index with the given height and block time. -/
def mkIndex (nHeight blockTime : Int) : CBlockIndex :=
  { nHeight := nHeight, GetBlockTime := blockTime }

/-- The default parameters with the given block spacing and adjustment interval. -/
def mkParams (targetBlockSpacing difficultyAdjustmentInterval : Int) : SafeDrivingParams :=
  { defaultParams with
    targetBlockSpacing := targetBlockSpacing
    difficultyAdjustmentInterval := difficultyAdjustmentInterval }

/-- Parameters whose target timespan is `2 ^ 62`, so that four times it does not
fit in an `int64_t`. -/
def hugeParams : SafeDrivingParams := mkParams (2 ^ 62) 1

/-- Parameters whose target timespan is `2 ^ 56`: 100 times and 4 times it fit
in an `int64_t`, 400 times it does not. -/
def wideParams : SafeDrivingParams := mkParams (2 ^ 56) 1

/-- A chain index that resolves every height to a block of time 0. -/
def flatChain : Int → Option CBlockIndex := fun n => some (mkIndex n 0)

/-- A chain index that resolves no height. -/
def emptyChain : Int → Option CBlockIndex := fun _ => none

/-- Parameters whose target timespan is 3, so that a quarter of it is 0. -/
def tinyParams : SafeDrivingParams := mkParams 3 1

/-- A record at every limit of the default parameters: the shortest distance
and duration, five hard brakes and five hard accelerations. -/
def floorRecord : CDrivingData := mkRecord 1000 120 30 40 5 5 0

/-- A block that carries the record `drivingData` and commits to the given hash
and score. -/
def mkBlock (drivingData : CDrivingData) (hashDrivingData drivingScore : Nat) : CBlock Nat :=
  { nVersion := 1, hashPrevBlock := 0, hashMerkleRoot := 0, nTime := 0, nBits := 1,
    nNonce := 0, hashDrivingData := hashDrivingData, drivingScore := drivingScore,
    vtx := [], drivingData := drivingData, fChecked := false,
    m_checked_witness_commitment := false, m_checked_merkle_root := false,
    m_checked_driving_data := false }

/-! ## Lemmas on the scoring steps -/

theorem maxSpeedStep_spec (r : CDrivingData) (s : Nat) (hm : r.maxSpeed < 2 ^ 16)
    (hs : s ≤ 1000) :
    ((r.maxSpeedStep s : Nat) : Int) = specStep2 r s ∧ r.maxSpeedStep s ≤ 1000 := by
  unfold maxSpeedStep specStep2 mul32 sub32 u32
  simp only []
  split_ifs <;> omega

theorem avgSpeedStep_spec (r : CDrivingData) (s : Nat) (hm : r.avgSpeed < 2 ^ 16)
    (hs : s ≤ 1000) :
    ((r.avgSpeedStep s : Nat) : Int) = specStep3 r s ∧ r.avgSpeedStep s ≤ 1000 := by
  unfold avgSpeedStep specStep3 mul32 sub32 u32
  simp only []
  split_ifs <;> omega

theorem idealSpeedStep_spec (r : CDrivingData) (s : Nat) (hs : s ≤ 1000) :
    ((r.idealSpeedStep s : Nat) : Int) = specStep4 r s ∧ r.idealSpeedStep s ≤ 1000 := by
  unfold idealSpeedStep specStep4 add32 u32
  split_ifs <;> omega

theorem brakeStep_spec (r : CDrivingData) (s : Nat) (hm : r.hardBrakes < 2 ^ 16)
    (hs : s ≤ 1000) :
    ((r.brakeStep s : Nat) : Int) = specStep5 r s ∧ r.brakeStep s ≤ 1000 := by
  unfold brakeStep specStep5 sub32 u32
  simp only []
  split_ifs <;> omega

theorem accelStep_spec (r : CDrivingData) (s : Nat) (hm : r.hardAccel < 2 ^ 16)
    (hs : s ≤ 1000) :
    ((r.accelStep s : Nat) : Int) = specStep6 r s ∧ r.accelStep s ≤ 1000 := by
  unfold accelStep specStep6 sub32 u32
  simp only []
  split_ifs <;> omega

theorem violationStep_spec (r : CDrivingData) (s : Nat) (hm : r.speedViolations < 2 ^ 8)
    (hs : s ≤ 1000) :
    ((r.violationStep s : Nat) : Int) = specStep7 r s ∧ r.violationStep s ≤ 1000 := by
  unfold violationStep specStep7 sub32 u32
  simp only []
  split_ifs <;> omega

theorem distanceStep_spec (r : CDrivingData) (s : Nat) (hm : r.distance < 2 ^ 32)
    (hs : s ≤ 1000) :
    ((r.distanceStep s : Nat) : Int) = specStep8 r s ∧ r.distanceStep s ≤ 1000 := by
  unfold distanceStep distanceBonus specStep8 add32 mul32 u32
  have h1 : r.distance / 1000 * 10 % 2 ^ 32 = r.distance / 1000 * 10 := by omega
  rw [h1]
  rcases Nat.le_total (r.distance / 1000 * 10) 200 with h | h
  · rw [Nat.min_eq_left h]
    have h2 : (s + r.distance / 1000 * 10) % 2 ^ 32 = s + r.distance / 1000 * 10 := by omega
    rw [h2]
    omega
  · rw [Nat.min_eq_right h]
    have h2 : (s + 200) % 2 ^ 32 = s + 200 := by omega
    rw [h2]
    omega

theorem durationStep_spec (r : CDrivingData) (s : Nat) (hm : r.duration < 2 ^ 32)
    (hs : s ≤ 1000) :
    ((r.durationStep s : Nat) : Int) = specStep9 r s ∧ r.durationStep s ≤ 1000 := by
  unfold durationStep durationBonus specStep9 add32 mul32 u32
  have h1 : r.duration / 60 * 5 % 2 ^ 32 = r.duration / 60 * 5 := by omega
  rw [h1]
  rcases Nat.le_total (r.duration / 60 * 5) 100 with h | h
  · rw [Nat.min_eq_left h]
    have h2 : (s + r.duration / 60 * 5) % 2 ^ 32 = s + r.duration / 60 * 5 := by omega
    rw [h2]
    omega
  · rw [Nat.min_eq_right h]
    have h2 : (s + 100) % 2 ^ 32 = s + 100 := by omega
    rw [h2]
    omega

/-- After `IsValid` has accepted, the returned score is the specification's
nine-step result and the running score never leaves `[0, 1000]`. -/
theorem scoreBody_spec (r : CDrivingData) (hr : r.InRange) :
    ((r.scoreBody : Nat) : Int) = specScore r ∧ ∀ v ∈ r.runningScores, v ≤ 1000 := by
  obtain ⟨-, -, hdist, hdur, havg, hmax, hbr, hac, hvi, -⟩ := hr
  obtain ⟨e2, b2⟩ := maxSpeedStep_spec r 1000 hmax (le_refl _)
  obtain ⟨e3, b3⟩ := avgSpeedStep_spec r _ havg b2
  obtain ⟨e4, b4⟩ := idealSpeedStep_spec r _ b3
  obtain ⟨e5, b5⟩ := brakeStep_spec r _ hbr b4
  obtain ⟨e6, b6⟩ := accelStep_spec r _ hac b5
  obtain ⟨e7, b7⟩ := violationStep_spec r _ hvi b6
  obtain ⟨e8, b8⟩ := distanceStep_spec r _ hdist b7
  obtain ⟨e9, b9⟩ := durationStep_spec r _ hdur b8
  constructor
  · unfold scoreBody specScore
    rw [e9, e8, e7, e6, e5, e4, e3, e2]
    rfl
  · intro v hv
    simp only [runningScores, List.mem_cons, List.mem_singleton, List.not_mem_nil,
      or_false] at hv
    rcases hv with h | h | h | h | h | h | h | h | h <;> rw [h] <;> first | exact le_refl _ | assumption

theorem exactDifference_range (score penalty : Nat) (hs : score ≤ 1000) :
    0 ≤ exactDifference score penalty ∧ exactDifference score penalty < 2 ^ 32 := by
  unfold exactDifference
  split_ifs <;> omega

/-- None of the 32-bit products, differences and sums of the scoring code
leaves the range of `uint32_t`. -/
theorem exactIntermediates_range (r : CDrivingData) (hr : r.InRange) :
    ∀ v ∈ exactIntermediates r, 0 ≤ v ∧ v < 2 ^ 32 := by
  have hs := (scoreBody_spec r hr).2
  obtain ⟨-, -, hdist, hdur, havg, hmax, hbr, hac, hvi, -⟩ := hr
  have b2 : r.maxSpeedStep 1000 ≤ 1000 := hs _ (by simp [runningScores])
  have b3 : r.avgSpeedStep (r.maxSpeedStep 1000) ≤ 1000 := hs _ (by simp [runningScores])
  have b4 : r.idealSpeedStep (r.avgSpeedStep (r.maxSpeedStep 1000)) ≤ 1000 :=
    hs _ (by simp [runningScores])
  have b5 : r.brakeStep (r.idealSpeedStep (r.avgSpeedStep (r.maxSpeedStep 1000))) ≤ 1000 :=
    hs _ (by simp [runningScores])
  have b6 : r.accelStep (r.brakeStep (r.idealSpeedStep (r.avgSpeedStep
      (r.maxSpeedStep 1000)))) ≤ 1000 := hs _ (by simp [runningScores])
  have b7 : r.violationStep (r.accelStep (r.brakeStep (r.idealSpeedStep
      (r.avgSpeedStep (r.maxSpeedStep 1000))))) ≤ 1000 := hs _ (by simp [runningScores])
  have b8 : r.distanceStep (r.violationStep (r.accelStep (r.brakeStep (r.idealSpeedStep
      (r.avgSpeedStep (r.maxSpeedStep 1000)))))) ≤ 1000 := hs _ (by simp [runningScores])
  have d1 : r.distanceBonus ≤ 200 := by unfold distanceBonus; omega
  have d2 : r.durationBonus ≤ 100 := by unfold durationBonus; omega
  intro v hv
  simp only [exactIntermediates, List.mem_cons, List.mem_singleton, List.not_mem_nil,
    or_false] at hv
  rcases hv with h | h | h | h | h | h | h | h | h | h | h | h | h | h | h <;> subst h
  · omega
  · exact exactDifference_range 1000 _ (Nat.le_refl 1000)
  · omega
  · exact exactDifference_range _ _ b2
  · omega
  · omega
  · exact exactDifference_range _ _ b4
  · omega
  · exact exactDifference_range _ _ b5
  · omega
  · exact exactDifference_range _ _ b6
  · omega
  · omega
  · omega
  · omega

/-! ## Lemmas on `IsValid` -/

/-- The records that `IsValid` accepts. -/
theorem isValid_eq_true_iff (r : CDrivingData) :
    r.IsValid = some true ↔
      r.IsNull = false ∧ 1000 ≤ r.distance ∧ 120 ≤ r.duration ∧ r.maxSpeed ≤ 1500 ∧
      r.routeHash ≠ 0 ∧ r.driverPubKeyHash ≠ 0 ∧ r.signature ≠ [] ∧
      r.avgSpeed ≤ r.maxSpeed ∧ mul32 r.duration 10 ≠ 0 ∧
      r.avgSpeed * 8 / 10 ≤ mul32 r.distance 36 / mul32 r.duration 10 ∧
      mul32 r.distance 36 / mul32 r.duration 10 ≤ r.avgSpeed * 12 / 10 := by
  unfold IsValid div32
  by_cases h0 : r.IsNull = true
  · simp [h0]
  by_cases h1 : r.distance < 1000
  · simp [h0, h1]
  by_cases h2 : r.duration < 120
  · simp [h0, h1, h2]
  by_cases h3 : r.maxSpeed > 1500
  · simp [h0, h1, h2, h3]
  by_cases h4 : r.routeHash = 0
  · simp [h0, h1, h2, h3, h4]
  by_cases h5 : r.driverPubKeyHash = 0
  · simp [h0, h1, h2, h3, h4, h5]
  by_cases h6 : r.signature = []
  · simp [h0, h1, h2, h3, h4, h5, h6]
  by_cases h7 : r.avgSpeed > r.maxSpeed
  · simp [h0, h1, h2, h3, h4, h5, h6, h7]
  have hd : r.duration > 0 := by omega
  by_cases h8 : mul32 r.duration 10 = 0
  · simp [h0, h1, h2, h3, h4, h5, h6, h7, hd, h8]
  simp only [h0, h1, h2, h3, h4, h5, h6, h7, hd, h8, List.isEmpty_eq_true, if_false, if_true,
    Option.map_some', Option.some.injEq, Bool.false_eq_true]
  split_ifs with hc
  · refine iff_of_false (by simp) (fun h => ?_)
    omega
  · exact iff_of_true rfl ⟨by simp [h0], by omega, by omega, by omega, h4, h5, h6,
      by omega, h8, by omega, by omega⟩

/-- A record that fails a check made before the speed sanity check is rejected. -/
theorem isValid_eq_false_of_early (r : CDrivingData)
    (h : r.IsNull = true ∨ r.distance < 1000 ∨ r.duration < 120 ∨ r.maxSpeed > 1500 ∨
      r.routeHash = 0 ∨ r.driverPubKeyHash = 0 ∨ r.signature = [] ∨ r.avgSpeed > r.maxSpeed) :
    r.IsValid = some false := by
  unfold IsValid
  by_cases h0 : r.IsNull = true
  · simp [h0]
  by_cases h1 : r.distance < 1000
  · simp [h0, h1]
  by_cases h2 : r.duration < 120
  · simp [h0, h1, h2]
  by_cases h3 : r.maxSpeed > 1500
  · simp [h0, h1, h2, h3]
  by_cases h4 : r.routeHash = 0
  · simp [h0, h1, h2, h3, h4]
  by_cases h5 : r.driverPubKeyHash = 0
  · simp [h0, h1, h2, h3, h4, h5]
  by_cases h6 : r.signature = []
  · simp [h0, h1, h2, h3, h4, h5, h6]
  by_cases h7 : r.avgSpeed > r.maxSpeed
  · simp [h0, h1, h2, h3, h4, h5, h6, h7]
  exfalso
  rcases h with h | h | h | h | h | h | h | h <;> contradiction

theorem calculateDrivingScore_of_isValid (r : CDrivingData) (b : Bool)
    (h : r.IsValid = some b) :
    r.CalculateDrivingScore = some (if b then r.scoreBody else 0) := by
  unfold CalculateDrivingScore
  rw [h]
  cases b <;> rfl

/-- Whenever `CalculateDrivingScore` returns, its value is at most 1000. -/
theorem calculateDrivingScore_le (r : CDrivingData) (hr : r.InRange) (s : Nat)
    (h : r.CalculateDrivingScore = some s) : s ≤ 1000 := by
  unfold CalculateDrivingScore at h
  cases hv : r.IsValid with
  | none => rw [hv] at h; cases h
  | some b =>
    rw [hv] at h
    cases b
    · simp at h; omega
    · simp at h
      rw [← h]
      exact (scoreBody_spec r hr).2 _ (by simp [runningScores, scoreBody])

/-- A division by zero in `IsValid` is reached only past the minimum-duration
check, with a 32-bit product `duration * 10` equal to zero. -/
theorem isValid_eq_none (r : CDrivingData) (h : r.IsValid = none) :
    120 ≤ r.duration ∧ mul32 r.duration 10 = 0 := by
  unfold IsValid div32 at h
  by_cases h0 : r.IsNull = true
  · simp [h0] at h
  by_cases h1 : r.distance < 1000
  · simp [h0, h1] at h
  by_cases h2 : r.duration < 120
  · simp [h0, h1, h2] at h
  by_cases h8 : mul32 r.duration 10 = 0
  · exact ⟨by omega, h8⟩
  · exfalso
    simp only [h0, h1, h2, h8, if_false, Option.map_some', Bool.false_eq_true] at h
    split_ifs at h

/-- Among the values of a `uint32_t` duration that pass the minimum-duration
check, `2 ^ 31` is the only one whose 32-bit product with 10 is zero. -/
theorem mul32_duration_eq_zero_iff (r : CDrivingData) (hr : r.duration < 2 ^ 32)
    (hd : 120 ≤ r.duration) : mul32 r.duration 10 = 0 ↔ r.duration = 2 ^ 31 := by
  unfold mul32 u32
  rw [show (2 : Nat) ^ 32 = 4294967296 by norm_num] at hr ⊢
  rw [show (2 : Nat) ^ 31 = 2147483648 by norm_num]
  generalize r.duration = d at hr hd ⊢
  constructor
  · intro h
    have h1 : 4294967296 ∣ d * 10 := Nat.dvd_of_mod_eq_zero h
    have h2 : (2147483648 : Nat) ∣ d * 5 := by
      have e : d * 10 = 2 * (d * 5) := by ring
      rw [e, show (4294967296 : Nat) = 2 * 2147483648 by norm_num] at h1
      exact Nat.dvd_of_mul_dvd_mul_left (by norm_num) h1
    have h3 : (2147483648 : Nat) ∣ d := by
      have c : Nat.Coprime 2147483648 5 := by norm_num
      exact c.dvd_of_dvd_mul_right h2
    obtain ⟨k, hk⟩ := h3
    have k2 : k < 2 := by
      rw [hk, show (4294967296 : Nat) = 2147483648 * 2 by norm_num] at hr
      exact Nat.lt_of_mul_lt_mul_left hr
    have k0 : k ≠ 0 := by
      rintro rfl
      rw [hk] at hd
      norm_num at hd
    have k1 : k = 1 := Nat.le_antisymm (Nat.lt_succ_iff.1 k2) (Nat.pos_of_ne_zero k0)
    rw [hk, k1]
  · intro h
    subst h
    norm_num

/-- The speed sanity check of `IsValid` compares the wrapped quotient: a record
whose exact computed speed is 3579139 is accepted with a declared speed of 0. -/
theorem isValid_wrappingRecord :
    wrappingRecord.InRange ∧ wrappingRecord.IsValid = some true ∧
      wrappingRecord.distance * 36 / (wrappingRecord.duration * 10) = 3579139 ∧
      wrappingRecord.avgSpeed = 0 := by
  decide

/-! ## The scoring contract -/

/-- C1: for every record of the declared field types that `IsValid` accepts,
`CalculateDrivingScore`, computed with machine integers, returns the nine-step
result of the specification computed over unbounded integers, and the exact
value of every product, difference and sum it evaluates in 32-bit arithmetic is
within `[0, 2 ^ 32)`, so that none wraps around. -/
theorem calculateDrivingScore_eq_specScore (r : CDrivingData) (hr : r.InRange)
    (hv : r.IsValid = some true) :
    (∃ s : Nat, r.CalculateDrivingScore = some s ∧ (s : Int) = specScore r) ∧
      ∀ v ∈ exactIntermediates r, 0 ≤ v ∧ v < 2 ^ 32 := by
  refine ⟨⟨r.scoreBody, ?_, (scoreBody_spec r hr).1⟩, exactIntermediates_range r hr⟩
  rw [calculateDrivingScore_of_isValid r true hv]
  rfl

theorem calculateDrivingScore_eq_specScore_witness :
    steadyRecord.InRange ∧ steadyRecord.IsValid = some true ∧
      ((∃ s : Nat, steadyRecord.CalculateDrivingScore = some s ∧
          (s : Int) = specScore steadyRecord) ∧
        ∀ v ∈ exactIntermediates steadyRecord, 0 ≤ v ∧ v < 2 ^ 32) :=
  ⟨by decide, by decide, calculateDrivingScore_eq_specScore steadyRecord (by decide) (by decide)⟩

/-- C2, as stated, fails: a record with the metrics of scenario A does not
score 1000. -/
theorem scenarioA_score_ne_1000 :
    ¬ ∀ r : CDrivingData, r.distance = 5000 → r.duration = 600 → r.avgSpeed = 650 →
        r.maxSpeed = 750 → r.hardBrakes = 2 → r.hardAccel = 1 → r.speedViolations = 0 →
        r.routeHash ≠ 0 → r.driverPubKeyHash ≠ 0 → r.signature ≠ [] →
        r.CalculateDrivingScore = some 1000 := by
  intro h
  exact absurd (h scenarioA rfl rfl rfl rfl rfl rfl rfl (by decide) (by decide) (by decide))
    (by decide)

/-- C2, amended: for a record with the metrics of scenario A (non-null hashes,
non-empty signature) the speed sanity check of `IsValid` fails, since the
computed speed `5000*36/(600*10) = 30` is below `650*8/10 = 520`; so `IsValid`
returns false and `CalculateDrivingScore` returns 0.  The nine scoring steps
applied to these metrics give 1000. -/
theorem scenarioA_rejected (r : CDrivingData) (h1 : r.distance = 5000)
    (h2 : r.duration = 600) (h3 : r.avgSpeed = 650) (h4 : r.maxSpeed = 750)
    (h5 : r.hardBrakes = 2) (h6 : r.hardAccel = 1) (h7 : r.speedViolations = 0)
    (_h8 : r.routeHash ≠ 0) (_h9 : r.driverPubKeyHash ≠ 0) (_h10 : r.signature ≠ []) :
    r.IsValid = some false ∧ r.CalculateDrivingScore = some 0 ∧
      r.scoreBody = 1000 ∧ specScore r = 1000 := by
  have hv : r.IsValid = some false := by
    cases hv : r.IsValid with
    | none =>
      have := (isValid_eq_none r hv).2
      rw [h2] at this
      exact absurd this (by decide)
    | some b =>
      cases b
      · rfl
      · have := (isValid_eq_true_iff r).1 hv
        rw [h1, h2, h3] at this
        exact absurd this.2.2.2.2.2.2.2.2.2.1 (by decide)
  refine ⟨hv, ?_, ?_, ?_⟩
  · rw [calculateDrivingScore_of_isValid r false hv]
    rfl
  · simp only [scoreBody, durationStep, durationBonus, distanceStep, distanceBonus,
      violationStep, accelStep, brakeStep, idealSpeedStep, avgSpeedStep, maxSpeedStep,
      h1, h2, h3, h4, h5, h6, h7]
    decide
  · simp only [specScore, specStep9, specStep8, specStep7, specStep6, specStep5, specStep4,
      specStep3, specStep2, h1, h2, h3, h4, h5, h6, h7]
    decide

theorem scenarioA_rejected_witness :
    scenarioA.IsValid = some false ∧ scenarioA.CalculateDrivingScore = some 0 ∧
      scenarioA.scoreBody = 1000 ∧ specScore scenarioA = 1000 :=
  scenarioA_rejected scenarioA rfl rfl rfl rfl rfl rfl rfl (by decide) (by decide) (by decide)

/-- C3: for every record for which `IsValid` returns false,
`CalculateDrivingScore` returns 0. -/
theorem calculateDrivingScore_of_invalid (r : CDrivingData) (h : r.IsValid = some false) :
    r.CalculateDrivingScore = some 0 := by
  rw [calculateDrivingScore_of_isValid r false h]
  rfl

theorem calculateDrivingScore_of_invalid_witness :
    scenarioA.IsValid = some false ∧ scenarioA.CalculateDrivingScore = some 0 :=
  ⟨by decide, calculateDrivingScore_of_invalid scenarioA (by decide)⟩

/-- C4 fails on the code: `zeroDivisorRecord` holds values of the declared field
types, yet `CalculateDrivingScore` returns no value on it, because `IsValid`
divides by zero. -/
theorem calculateDrivingScore_zeroDivisorRecord :
    zeroDivisorRecord.InRange ∧ zeroDivisorRecord.CalculateDrivingScore = none := by
  decide

/-- C5 fails on the code: `zeroDivisorRecord` holds values of the declared field
types and passes every check that precedes the speed sanity check, its duration
is positive, and the divisor `duration * 10`, computed in 32-bit unsigned
arithmetic, is zero; `IsValid` has no result on it. -/
theorem isValid_zeroDivisorRecord :
    zeroDivisorRecord.InRange ∧ zeroDivisorRecord.IsNull = false ∧
      ¬ zeroDivisorRecord.distance < 1000 ∧ ¬ zeroDivisorRecord.duration < 120 ∧
      ¬ zeroDivisorRecord.maxSpeed > 1500 ∧ zeroDivisorRecord.routeHash ≠ 0 ∧
      zeroDivisorRecord.driverPubKeyHash ≠ 0 ∧ zeroDivisorRecord.signature.isEmpty = false ∧
      ¬ zeroDivisorRecord.avgSpeed > zeroDivisorRecord.maxSpeed ∧
      zeroDivisorRecord.duration > 0 ∧ mul32 zeroDivisorRecord.duration 10 = 0 ∧
      zeroDivisorRecord.IsValid = none := by
  decide

/-! ## Well-formedness -/

/-- C6, as stated, fails: `truncationRecord` is accepted by `IsValid` although
its computed speed is 0 and its declared average speed is 1, so that
`8 * avgSpeed <= 10 * c` is false. -/
theorem speed_margin_exact_fails :
    ¬ ∀ r : CDrivingData, r.InRange → r.IsValid = some true →
        8 * r.avgSpeed ≤ 10 * (r.distance * 36 / (r.duration * 10)) ∧
        10 * (r.distance * 36 / (r.duration * 10)) ≤ 12 * r.avgSpeed := by
  intro h
  exact absurd (h truncationRecord (by decide) (by decide)) (by decide)

/-- C6, amended: for every record whose products `distance * 36` and
`duration * 10` fit in 32 bits, if `IsValid` accepts the record then the computed
average speed `c = distance*36 / (duration*10)` lies between the truncated
bounds `avgSpeed*8/10` and `avgSpeed*12/10`, that is `10*c <= 12*avgSpeed` and
`8*avgSpeed <= 10*c + 9`; and every such record with `c > avgSpeed*12/10` or
`c < avgSpeed*8/10` is rejected by `IsValid`. -/
theorem speed_margin_truncated (r : CDrivingData) (hd : r.distance * 36 < 2 ^ 32)
    (ht : r.duration * 10 < 2 ^ 32) :
    (r.IsValid = some true →
      r.avgSpeed * 8 / 10 ≤ r.distance * 36 / (r.duration * 10) ∧
      r.distance * 36 / (r.duration * 10) ≤ r.avgSpeed * 12 / 10 ∧
      10 * (r.distance * 36 / (r.duration * 10)) ≤ 12 * r.avgSpeed ∧
      8 * r.avgSpeed ≤ 10 * (r.distance * 36 / (r.duration * 10)) + 9) ∧
    (r.distance * 36 / (r.duration * 10) > r.avgSpeed * 12 / 10 ∨
      r.distance * 36 / (r.duration * 10) < r.avgSpeed * 8 / 10 →
      r.IsValid = some false) := by
  have e1 : mul32 r.distance 36 = r.distance * 36 := Nat.mod_eq_of_lt hd
  have e2 : mul32 r.duration 10 = r.duration * 10 := Nat.mod_eq_of_lt ht
  constructor
  · intro hv
    have h := (isValid_eq_true_iff r).1 hv
    rw [e1, e2] at h
    obtain ⟨-, -, -, -, -, -, -, -, -, hlo, hhi⟩ := h
    refine ⟨hlo, hhi, ?_, ?_⟩ <;> omega
  · intro hc
    cases hv : r.IsValid with
    | none =>
      have h := isValid_eq_none r hv
      rw [e2] at h
      omega
    | some b =>
      cases b
      · rfl
      · have h := (isValid_eq_true_iff r).1 hv
        rw [e1, e2] at h
        omega

theorem speed_margin_truncated_witness :
    steadyRecord.distance * 36 < 2 ^ 32 ∧ steadyRecord.duration * 10 < 2 ^ 32 ∧
      steadyRecord.IsValid = some true ∧
      steadyRecord.avgSpeed * 8 / 10 ≤
        steadyRecord.distance * 36 / (steadyRecord.duration * 10) ∧
      steadyRecord.distance * 36 / (steadyRecord.duration * 10) ≤
        steadyRecord.avgSpeed * 12 / 10 :=
  have h := (speed_margin_truncated steadyRecord (by decide) (by decide)).1 (by decide)
  ⟨by decide, by decide, by decide, h.1, h.2.1⟩

/-- C7: if `IsValid` returns true then the record is not null, `distance >= 1000`,
`duration >= 120`, `maxSpeed <= 1500`, both hashes are non-null, the signature
is non-empty and `avgSpeed <= maxSpeed`.  A null record, the freshly
constructed record and every record with `distance < 1000` are rejected by
`IsValid` and score 0. -/
theorem isValid_requirements (r : CDrivingData) :
    (r.IsValid = some true →
      ¬ (r.distance = 0 ∧ r.duration = 0) ∧ r.distance ≥ 1000 ∧ r.duration ≥ 120 ∧
      r.maxSpeed ≤ 1500 ∧ r.routeHash ≠ 0 ∧ r.driverPubKeyHash ≠ 0 ∧
      r.signature ≠ [] ∧ r.avgSpeed ≤ r.maxSpeed) ∧
    (r.IsNull = true → r.IsValid = some false ∧ r.CalculateDrivingScore = some 0) ∧
    (SetNull.IsValid = some false ∧ SetNull.CalculateDrivingScore = some 0) ∧
    (r.distance < 1000 → r.IsValid = some false ∧ r.CalculateDrivingScore = some 0) := by
  refine ⟨fun hv => ?_, fun hn => ?_, by decide, fun hd => ?_⟩
  · obtain ⟨-, h1, h2, h3, h4, h5, h6, h7, -⟩ := (isValid_eq_true_iff r).1 hv
    exact ⟨by omega, h1, h2, h3, h4, h5, h6, h7⟩
  · have hv := isValid_eq_false_of_early r (Or.inl hn)
    exact ⟨hv, by rw [calculateDrivingScore_of_isValid r false hv]; rfl⟩
  · have hv := isValid_eq_false_of_early r (Or.inr (Or.inl hd))
    exact ⟨hv, by rw [calculateDrivingScore_of_isValid r false hv]; rfl⟩

theorem isValid_requirements_witness :
    steadyRecord.IsValid = some true ∧ steadyRecord.distance ≥ 1000 ∧
      steadyRecord.duration ≥ 120 ∧
      (mkRecord 999 600 60 1500 0 0 0).distance < 1000 ∧
      (mkRecord 999 600 60 1500 0 0 0).maxSpeed = 1500 ∧
      (mkRecord 999 600 60 1500 0 0 0).IsValid = some false ∧
      (mkRecord 999 600 60 1500 0 0 0).CalculateDrivingScore = some 0 :=
  have h := (isValid_requirements steadyRecord).1 (by decide)
  have k := (isValid_requirements (mkRecord 999 600 60 1500 0 0 0)).2.2.2 (by decide)
  ⟨by decide, h.2.1, h.2.2.1, by decide, rfl, k.1, k.2⟩

/-! ## The policy gate -/

/-- The records and parameters that `CheckProofOfSafeDriving` accepts. -/
theorem checkProofOfSafeDriving_eq_true_iff (r : CDrivingData) (p : SafeDrivingParams) :
    CheckProofOfSafeDriving r p = some true ↔
      r.IsValid = some true ∧ p.minDistance ≤ r.distance ∧ p.minDuration ≤ r.duration ∧
      r.maxSpeed ≤ p.maxSpeedLimit ∧ r.hardBrakes ≤ p.maxHardBrakes ∧
      r.hardAccel ≤ p.maxHardAccel ∧ r.speedViolations ≤ p.maxSpeedViolations := by
  unfold CheckProofOfSafeDriving
  cases hv : r.IsValid with
  | none => simp
  | some b =>
    cases b
    · simp
    · simp only [Bool.not_true, Bool.false_eq_true, if_false, true_and]
      constructor
      · intro h
        split_ifs at h <;> first | omega | cases h
      · intro h
        split_ifs <;> first | rfl | omega

/-- C8, as stated, fails: `unroutedRecord` is not null and meets the six
thresholds of the default parameters, yet `CheckProofOfSafeDriving` rejects it,
because `IsValid` rejects its null route hash. -/
theorem policy_gate_not_independent :
    ¬ ∀ (r : CDrivingData) (p : SafeDrivingParams), r.IsNull = false →
        r.distance ≥ p.minDistance → r.duration ≥ p.minDuration →
        r.maxSpeed ≤ p.maxSpeedLimit → r.hardBrakes ≤ p.maxHardBrakes →
        r.hardAccel ≤ p.maxHardAccel → r.speedViolations ≤ p.maxSpeedViolations →
        CheckProofOfSafeDriving r p = some true := by
  intro h
  exact absurd (h unroutedRecord defaultParams (by decide) (by decide) (by decide) (by decide)
    (by decide) (by decide) (by decide)) (by decide)

/-- C8, amended: for every record and every params, if `IsValid` accepts the
record and `distance >= params.minDistance`, `duration >= params.minDuration`,
`maxSpeed <= params.maxSpeedLimit`, `hardBrakes <= params.maxHardBrakes`,
`hardAccel <= params.maxHardAccel` and
`speedViolations <= params.maxSpeedViolations`, then `CheckProofOfSafeDriving`
returns true. -/
theorem checkProofOfSafeDriving_complete (r : CDrivingData) (p : SafeDrivingParams)
    (hv : r.IsValid = some true) (h1 : r.distance ≥ p.minDistance)
    (h2 : r.duration ≥ p.minDuration) (h3 : r.maxSpeed ≤ p.maxSpeedLimit)
    (h4 : r.hardBrakes ≤ p.maxHardBrakes) (h5 : r.hardAccel ≤ p.maxHardAccel)
    (h6 : r.speedViolations ≤ p.maxSpeedViolations) :
    CheckProofOfSafeDriving r p = some true :=
  (checkProofOfSafeDriving_eq_true_iff r p).2 ⟨hv, h1, h2, h3, h4, h5, h6⟩

theorem checkProofOfSafeDriving_complete_witness :
    steadyRecord.IsValid = some true ∧
      CheckProofOfSafeDriving steadyRecord defaultParams = some true :=
  ⟨by decide, checkProofOfSafeDriving_complete steadyRecord defaultParams (by decide)
    (by decide) (by decide) (by decide) (by decide) (by decide) (by decide)⟩

/-- C9: for every record and every params, if `CheckProofOfSafeDriving` returns
true then the record is not null and `distance >= params.minDistance`,
`duration >= params.minDuration`, `maxSpeed <= params.maxSpeedLimit`,
`hardBrakes <= params.maxHardBrakes`, `hardAccel <= params.maxHardAccel` and
`speedViolations <= params.maxSpeedViolations`. -/
theorem checkProofOfSafeDriving_sound (r : CDrivingData) (p : SafeDrivingParams)
    (h : CheckProofOfSafeDriving r p = some true) :
    ¬ (r.distance = 0 ∧ r.duration = 0) ∧ r.distance ≥ p.minDistance ∧
      r.duration ≥ p.minDuration ∧ r.maxSpeed ≤ p.maxSpeedLimit ∧
      r.hardBrakes ≤ p.maxHardBrakes ∧ r.hardAccel ≤ p.maxHardAccel ∧
      r.speedViolations ≤ p.maxSpeedViolations := by
  obtain ⟨hv, h1, h2, h3, h4, h5, h6⟩ := (checkProofOfSafeDriving_eq_true_iff r p).1 h
  obtain ⟨-, k1, -⟩ := (isValid_eq_true_iff r).1 hv
  exact ⟨by omega, h1, h2, h3, h4, h5, h6⟩

theorem checkProofOfSafeDriving_sound_witness :
    CheckProofOfSafeDriving steadyRecord defaultParams = some true ∧
      steadyRecord.distance ≥ defaultParams.minDistance ∧
      steadyRecord.speedViolations ≤ defaultParams.maxSpeedViolations :=
  have h := checkProofOfSafeDriving_sound steadyRecord defaultParams (by decide)
  ⟨by decide, h.2.1, h.2.2.2.2.2.2⟩

/-- C10: `ValidateDrivingDataSignature` returns true if and only if the byte
length `n` of the signature satisfies `64 <= n <= 80`, and two records whose
signatures have the same length get the same result, whatever their other
fields. -/
theorem validateDrivingDataSignature_iff (r r' : CDrivingData) :
    (ValidateDrivingDataSignature r = true ↔
      64 ≤ r.signature.length ∧ r.signature.length ≤ 80) ∧
    (r.signature.length = r'.signature.length →
      ValidateDrivingDataSignature r = ValidateDrivingDataSignature r') := by
  have key : ∀ d : CDrivingData, ValidateDrivingDataSignature d =
      decide (64 ≤ d.signature.length ∧ d.signature.length ≤ 80) := by
    intro d
    unfold ValidateDrivingDataSignature
    cases hs : d.signature with
    | nil => simp
    | cons a l =>
      simp only [List.isEmpty_cons, Bool.false_eq_true, if_false]
      split_ifs with hc
      · symm; simp only [decide_eq_false_iff_not]; omega
      · symm; simp only [decide_eq_true_eq]; omega
  constructor
  · rw [key r]; simp
  · intro h
    rw [key r, key r', h]

theorem validateDrivingDataSignature_iff_witness :
    ValidateDrivingDataSignature { steadyRecord with signature := List.replicate 64 7 } = true ∧
      ValidateDrivingDataSignature { steadyRecord with signature := List.replicate 63 7 } = false ∧
      ValidateDrivingDataSignature { steadyRecord with signature := List.replicate 64 7 } =
        ValidateDrivingDataSignature { SetNull with signature := List.replicate 64 0 } :=
  ⟨(validateDrivingDataSignature_iff _ steadyRecord).1.2 (by decide), by decide,
    (validateDrivingDataSignature_iff _ _).2 (by decide)⟩


/-! ## Lemmas on signed arithmetic -/

theorem i64_of_fits {x : Int} (h1 : -(2 : Int) ^ 63 ≤ x) (h2 : x < 2 ^ 63) : i64 x = some x := by
  unfold i64
  rw [if_pos ⟨h1, h2⟩]

theorem i32_of_fits {x : Int} (h1 : -(2 : Int) ^ 31 ≤ x) (h2 : x < 2 ^ 31) : i32 x = some x := by
  unfold i32
  rw [if_pos ⟨h1, h2⟩]

theorem div64_of_nonneg {a b : Int} (ha : 0 ≤ a) (ha2 : a < 2 ^ 63) (hb : 0 < b) :
    div64 a b = some (a / b) := by
  unfold div64
  rw [if_neg (by omega), Int.tdiv_eq_ediv ha (le_of_lt hb)]
  apply i64_of_fits
  · have := Int.ediv_nonneg ha (le_of_lt hb)
    omega
  · have : a / b ≤ a := Int.ediv_le_self b ha
    omega

theorem mod64_of_ne_zero {a b : Int} (ha1 : -(2 : Int) ^ 63 < a) (ha2 : a < 2 ^ 63)
    (hb : b ≠ 0) : mod64 a b = some (Int.tmod a b) := by
  unfold mod64 div64
  rw [if_neg hb]
  have h : (Int.tdiv a b).natAbs ≤ a.natAbs := by
    rw [Int.natAbs_tdiv]
    exact Nat.div_le_self _ _
  rw [i64_of_fits (by omega) (by omega)]
  rfl

theorem toU32_cast (k : Nat) (h : k < 2 ^ 32) : toU32 (k : Int) = k := by
  unfold toU32
  omega

theorem toI32_of_fits {x : Int} (h1 : -(2 : Int) ^ 31 ≤ x) (h2 : x < 2 ^ 31) : toI32 x = x := by
  unfold toI32
  omega

/-! ## Lemmas on retargeting -/

/-- Blocks too fast: the ratio `T*100/a` is between 100 and 700. -/
theorem fast_ratio_bounds (T a : Int) (ha : 1 ≤ a) (h4 : T / 4 ≤ a) (hlt : a < T) :
    100 ≤ T * 100 / a ∧ T * 100 / a ≤ 700 := by
  have ha0 : 0 < a := by omega
  constructor
  · apply Int.le_ediv_of_mul_le ha0
    nlinarith
  · by_contra hq
    push_neg at hq
    have h1 : T * 100 / a * a ≤ T * 100 := Int.ediv_mul_le _ (by omega)
    have h2 : 701 * a ≤ T * 100 / a * a := by nlinarith
    omega

/-- Blocks on time or too slow: the ratio `a*100/T` is between 100 and 400. -/
theorem slow_ratio_bounds (T a : Int) (hT : 1 ≤ T) (h4 : a ≤ T * 4) (hlt : T ≤ a) :
    100 ≤ a * 100 / T ∧ a * 100 / T ≤ 400 := by
  have hT0 : 0 < T := by omega
  constructor
  · apply Int.le_ediv_of_mul_le hT0
    nlinarith
  · apply Int.ediv_le_of_le_mul hT0
    nlinarith

theorem clampedTimespan_bounds (T d : Int) (h1 : 1 ≤ T) :
    T / 4 ≤ clampedTimespan T d ∧ clampedTimespan T d ≤ T * 4 ∧
      (d < T → clampedTimespan T d < T) ∧ (T ≤ d → T ≤ clampedTimespan T d) ∧
      (4 ≤ T ∨ 1 ≤ d → 1 ≤ clampedTimespan T d) := by
  unfold clampedTimespan clamp
  rw [Int.tdiv_eq_ediv (by omega) (by omega)]
  omega

/-- The product of the clamped timespan and 100 fits in 64 bits whenever `T*400`
does, and whenever `T*100` and 100 times the actual timespan do (as for the
difference of two 32-bit block times). -/
theorem clampedTimespan_mul_lt (T d : Int) (h1 : 1 ≤ T)
    (h : T * 400 < 2 ^ 63 ∨ (T * 100 < 2 ^ 63 ∧ d * 100 < 2 ^ 63)) :
    clampedTimespan T d * 100 < 2 ^ 63 := by
  unfold clampedTimespan clamp
  rw [Int.tdiv_eq_ediv (by omega) (by omega)]
  omega

/-- When no signed operation overflows and the clamped timespan is positive,
`CalculateNextRequiredDrivingScore` returns the value of the specification. -/
theorem calculateNext_eq_spec (pindexLast : CBlockIndex) (nFirstBlockTime : Int)
    (params : SafeDrivingParams) (T d : Int)
    (hT : T = params.targetBlockSpacing * params.difficultyAdjustmentInterval)
    (hd : d = pindexLast.GetBlockTime - nFirstBlockTime)
    (h1 : 1 ≤ T) (hB1 : T * 100 < 2 ^ 63) (hB2 : clampedTimespan T d * 100 < 2 ^ 63)
    (hd1 : -(2 : Int) ^ 63 ≤ d) (hd2 : d < 2 ^ 63) (ha : 4 ≤ T ∨ 1 ≤ d) :
    ∃ s : Nat, CalculateNextRequiredDrivingScore pindexLast nFirstBlockTime params = some s ∧
      (s : Int) = specNextRequiredScore T d := by
  obtain ⟨hlo, hhi, -, -, hpos⟩ := clampedTimespan_bounds T d h1
  have hpos := hpos ha
  unfold CalculateNextRequiredDrivingScore specNextRequiredScore
  rw [← hT, ← hd]
  have e1 : i64 d = some d := i64_of_fits hd1 hd2
  have e2 : i64 T = some T := i64_of_fits (by omega) (by omega)
  have e3 : div64 T 4 = some (T / 4) := div64_of_nonneg (by omega) (by omega) (by omega)
  have e4 : i64 (T * 4) = some (T * 4) := i64_of_fits (by omega) (by omega)
  have ec : (if (if d < T / 4 then T / 4 else d) > T * 4 then T * 4
      else (if d < T / 4 then T / 4 else d)) = clampedTimespan T d := by
    unfold clampedTimespan clamp
    rw [Int.tdiv_eq_ediv (by omega) (by omega)]
    split_ifs <;> omega
  simp only [e1, e2, e3, e4, Option.bind_eq_bind, Option.some_bind, Option.pure_def, ec]
  generalize clampedTimespan T d = a at hlo hhi hpos hB2 ⊢
  by_cases hlt : a < T
  · obtain ⟨q1, q2⟩ := fast_ratio_bounds T a hpos hlo hlt
    have e6 : i64 (T * 100) = some (T * 100) := i64_of_fits (by omega) (by omega)
    have e7 : div64 (T * 100) a = some (T * 100 / a) :=
      div64_of_nonneg (by omega) (by omega) (by omega)
    have e8 : Int.tdiv (T * 100) a = T * 100 / a := Int.tdiv_eq_ediv (by omega) (by omega)
    simp only [hlt, if_true, e6, e7, e8, Option.some_bind]
    generalize T * 100 / a = q at q1 q2 ⊢
    obtain ⟨k, rfl⟩ := Int.eq_ofNat_of_zero_le (show 0 ≤ q by omega)
    rw [toU32_cast k (by omega)]
    refine ⟨_, rfl, ?_⟩
    rw [Int.tdiv_eq_ediv (by omega) (by omega)]
    have hk : 500 * k % 2 ^ 32 = 500 * k := Nat.mod_eq_of_lt (by omega)
    unfold mul32 u32 clamp
    rw [hk]
    clear hB1 hB2 hd1 hd2 e1 e2 e3 e4 e6 e7 e8 ec ha hlo hhi hpos hlt
    split_ifs <;> omega
  · have hle : T ≤ a := by omega
    obtain ⟨q1, q2⟩ := slow_ratio_bounds T a h1 hhi hle
    have e6 : i64 (a * 100) = some (a * 100) := i64_of_fits (by omega) (by omega)
    have e7 : div64 (a * 100) T = some (a * 100 / T) :=
      div64_of_nonneg (by omega) (by omega) (by omega)
    have e8 : Int.tdiv (a * 100) T = a * 100 / T := Int.tdiv_eq_ediv (by omega) (by omega)
    simp only [hlt, if_false, e6, e7, e8, Option.some_bind]
    generalize a * 100 / T = q at q1 q2 ⊢
    obtain ⟨k, rfl⟩ := Int.eq_ofNat_of_zero_le (show 0 ≤ q by omega)
    rw [toU32_cast k (by omega)]
    have hk0 : k ≠ 0 := by omega
    have hdiv : div32 (mul32 500 100) k = some (50000 / k) := by
      unfold div32 mul32 u32
      rw [if_neg hk0]
      rfl
    rw [hdiv, Option.some_bind]
    refine ⟨_, rfl, ?_⟩
    rw [Int.tdiv_eq_ediv (by omega) (by omega)]
    have hq : (((50000 / k : Nat) : Int)) = (500 * 100 : Int) / (k : Int) := by
      push_cast
      rfl
    have b1 : 125 ≤ 50000 / k := (Nat.le_div_iff_mul_le (by omega)).2 (by omega)
    have b2 : 50000 / k ≤ 500 := by
      apply Nat.div_le_of_le_mul
      omega
    rw [← hq]
    generalize 50000 / k = n at b1 b2 ⊢
    unfold clamp
    clear hB1 hB2 hd1 hd2 e1 e2 e3 e4 e6 e7 e8 ec ha hlo hhi hpos hlt hq
    split_ifs <;> omega

/-- The value of the specification is always within `[200, 900]`. -/
theorem specNextRequiredScore_range (T d : Int) :
    200 ≤ specNextRequiredScore T d ∧ specNextRequiredScore T d ≤ 900 := by
  unfold specNextRequiredScore clamp
  simp only []
  omega

/-- Blocks too fast: the value of the specification is at least the base 500. -/
theorem specNextRequiredScore_fast (T d : Int) (h1 : 1 ≤ T) (ha : 4 ≤ T ∨ 1 ≤ d)
    (hlt : d < T) : 500 ≤ specNextRequiredScore T d := by
  obtain ⟨hlo, -, hf, -, hpos⟩ := clampedTimespan_bounds T d h1
  have hpos := hpos ha
  have hlt := hf hlt
  unfold specNextRequiredScore
  simp only []
  generalize clampedTimespan T d = a at hlo hpos hlt ⊢
  obtain ⟨q1, -⟩ := fast_ratio_bounds T a hpos hlo hlt
  rw [if_pos hlt, Int.tdiv_eq_ediv (a := T * 100) (by omega) (by omega)]
  generalize T * 100 / a = q at q1 ⊢
  rw [Int.tdiv_eq_ediv (by omega) (by omega)]
  unfold clamp
  omega

/-- Blocks on time or too slow: the value of the specification is at most the
base 500. -/
theorem specNextRequiredScore_slow (T d : Int) (h1 : 1 ≤ T) (hle : T ≤ d) :
    specNextRequiredScore T d ≤ 500 := by
  obtain ⟨-, hhi, -, hs, -⟩ := clampedTimespan_bounds T d h1
  have hle := hs hle
  unfold specNextRequiredScore
  simp only []
  generalize clampedTimespan T d = a at hhi hle ⊢
  obtain ⟨q1, q2⟩ := slow_ratio_bounds T a h1 hhi hle
  rw [if_neg (by omega), Int.tdiv_eq_ediv (a := a * 100) (by omega) (by omega)]
  generalize a * 100 / T = q at q1 q2 ⊢
  rw [Int.tdiv_eq_ediv (by omega) (by omega)]
  have b2 : (500 * 100 : Int) / q ≤ 500 := by
    apply Int.ediv_le_of_le_mul (by omega)
    omega
  unfold clamp
  omega

/-- On target: the value of the specification is the base 500. -/
theorem specNextRequiredScore_on_target (T : Int) (h1 : 1 ≤ T) :
    clampedTimespan T T = T ∧ specNextRequiredScore T T = 500 := by
  have hc : clampedTimespan T T = T := by
    unfold clampedTimespan clamp
    rw [Int.tdiv_eq_ediv (by omega) (by omega)]
    omega
  refine ⟨hc, ?_⟩
  unfold specNextRequiredScore
  simp only [hc, lt_irrefl, if_false]
  have hq : T * 100 / T = 100 := by
    rw [mul_comm]
    exact Int.mul_ediv_cancel 100 (by omega)
  rw [Int.tdiv_eq_ediv (a := T * 100) (by omega) (by omega), hq]
  decide

/-- A divisor of a positive target timespan is no larger than it in magnitude. -/
theorem interval_bounds (params : SafeDrivingParams) (T : Int)
    (hT : T = params.targetBlockSpacing * params.difficultyAdjustmentInterval) (h1 : 1 ≤ T) :
    params.difficultyAdjustmentInterval ≠ 0 ∧ params.difficultyAdjustmentInterval ≤ T ∧
      -T ≤ params.difficultyAdjustmentInterval := by
  have hdvd : params.difficultyAdjustmentInterval ∣ T := ⟨params.targetBlockSpacing, by rw [hT, mul_comm]⟩
  have hpos : 0 < T := by omega
  refine ⟨?_, Int.le_of_dvd hpos hdvd, ?_⟩
  · intro h0
    rw [h0, mul_zero] at hT
    omega
  · have := Int.le_of_dvd hpos ((Int.neg_dvd).2 hdvd)
    omega

/-- Off a retarget boundary `GetNextRequiredDrivingScore` returns the base. -/
theorem getNext_not_boundary (pindexLast : CBlockIndex)
    (GetAncestor : Int → Option CBlockIndex) (params : SafeDrivingParams)
    (hh1 : -(2 : Int) ^ 31 ≤ pindexLast.nHeight) (hh2 : pindexLast.nHeight + 1 < 2 ^ 31)
    (hi : params.difficultyAdjustmentInterval ≠ 0)
    (hm : (pindexLast.nHeight + 1) % params.difficultyAdjustmentInterval ≠ 0) :
    GetNextRequiredDrivingScore pindexLast GetAncestor params = some 500 := by
  have ht : Int.tmod (pindexLast.nHeight + 1) params.difficultyAdjustmentInterval ≠ 0 := by
    intro h
    exact hm (Int.emod_eq_zero_of_dvd (Int.dvd_of_tmod_eq_zero h))
  unfold GetNextRequiredDrivingScore
  rw [i32_of_fits (by omega) hh2]
  simp only [Option.bind_eq_bind, Option.some_bind, Option.pure_def]
  rw [mod64_of_ne_zero (by omega) (by omega) hi]
  simp only [Option.some_bind, ne_eq, ht, not_false_eq_true, if_true]

/-- On a retarget boundary `GetNextRequiredDrivingScore` looks up the ancestor
`difficultyAdjustmentInterval - 1` blocks back. -/
theorem getNext_boundary (pindexLast : CBlockIndex)
    (GetAncestor : Int → Option CBlockIndex) (params : SafeDrivingParams)
    (hh1 : -(2 : Int) ^ 31 ≤ pindexLast.nHeight) (hh2 : pindexLast.nHeight + 1 < 2 ^ 31)
    (hi : params.difficultyAdjustmentInterval ≠ 0)
    (hI1 : -(2 : Int) ^ 62 ≤ params.difficultyAdjustmentInterval)
    (hI2 : params.difficultyAdjustmentInterval ≤ 2 ^ 62)
    (hm : (pindexLast.nHeight + 1) % params.difficultyAdjustmentInterval = 0) :
    GetNextRequiredDrivingScore pindexLast GetAncestor params =
      if toI32 (pindexLast.nHeight + 1 - params.difficultyAdjustmentInterval) < 0 then some 500
      else
        match GetAncestor
            (toI32 (pindexLast.nHeight + 1 - params.difficultyAdjustmentInterval)) with
        | none => some 500
        | some pindexFirst =>
          CalculateNextRequiredDrivingScore pindexLast pindexFirst.GetBlockTime params := by
  have ht : Int.tmod (pindexLast.nHeight + 1) params.difficultyAdjustmentInterval = 0 :=
    Int.tmod_eq_zero_of_dvd (Int.dvd_of_emod_eq_zero hm)
  have he : pindexLast.nHeight - (params.difficultyAdjustmentInterval - 1) =
      pindexLast.nHeight + 1 - params.difficultyAdjustmentInterval := by omega
  unfold GetNextRequiredDrivingScore
  rw [i32_of_fits (by omega) hh2]
  simp only [Option.bind_eq_bind, Option.some_bind, Option.pure_def]
  rw [mod64_of_ne_zero (by omega) (by omega) hi]
  simp only [Option.some_bind, ne_eq, ht, not_true_eq_false, if_false]
  rw [i64_of_fits (by omega) (by omega)]
  simp only [Option.some_bind]
  rw [i64_of_fits (by omega) (by omega)]
  simp only [Option.some_bind, he]

/-! ## The retargeting contract -/

/-- C11, as stated, fails: with a target timespan of `2 ^ 56` (100 times and 4
times it fit in 64 bits) and an actual timespan of `2 ^ 57`, the product
`nActualTimespan * 100` overflows and the code has no result, where the
formula gives 250. -/
theorem retarget_formula_overflow :
    ¬ ∀ (pindexLast : CBlockIndex) (nFirstBlockTime : Int) (params : SafeDrivingParams),
        -(2 : Int) ^ 63 ≤ pindexLast.GetBlockTime - nFirstBlockTime →
        pindexLast.GetBlockTime - nFirstBlockTime < 2 ^ 63 →
        4 ≤ params.targetBlockSpacing * params.difficultyAdjustmentInterval →
        params.targetBlockSpacing * params.difficultyAdjustmentInterval * 100 < 2 ^ 63 →
        params.targetBlockSpacing * params.difficultyAdjustmentInterval * 4 < 2 ^ 63 →
        ∃ s : Nat,
          CalculateNextRequiredDrivingScore pindexLast nFirstBlockTime params = some s ∧
          (s : Int) = specNextRequiredScore
            (params.targetBlockSpacing * params.difficultyAdjustmentInterval)
            (pindexLast.GetBlockTime - nFirstBlockTime) := by
  intro h
  obtain ⟨s, hs, -⟩ := h (mkIndex 0 0) (-(2 ^ 57)) wideParams (by decide) (by decide)
    (by decide) (by decide) (by decide)
  rw [show CalculateNextRequiredDrivingScore (mkIndex 0 0) (-(2 ^ 57)) wideParams = none
    by decide] at hs
  cases hs

/-- C11, amended: for every params with `T = targetBlockSpacing *
difficultyAdjustmentInterval >= 4` such that `T*100` fits in 64 bits, and every
tip time and first-block time whose difference fits in 64 bits and whose clamped
timespan `a` is such that `a*100` fits in 64 bits (as it does whenever `T*400`
fits, and for any two 32-bit block times), `CalculateNextRequiredDrivingScore`
returns the formula of the specification over exact integers with truncating
division; the adjustment and the product `500 * adjustment` are below `2 ^ 32`,
so that the 32-bit narrowing and product lose nothing. -/
theorem calculateNextRequiredDrivingScore_eq_spec (pindexLast : CBlockIndex)
    (nFirstBlockTime : Int) (params : SafeDrivingParams)
    (hT : 4 ≤ params.targetBlockSpacing * params.difficultyAdjustmentInterval)
    (hB : params.targetBlockSpacing * params.difficultyAdjustmentInterval * 100 < 2 ^ 63)
    (hd1 : -(2 : Int) ^ 63 ≤ pindexLast.GetBlockTime - nFirstBlockTime)
    (hd2 : pindexLast.GetBlockTime - nFirstBlockTime < 2 ^ 63)
    (hA : clampedTimespan (params.targetBlockSpacing * params.difficultyAdjustmentInterval)
      (pindexLast.GetBlockTime - nFirstBlockTime) * 100 < 2 ^ 63) :
    (∃ s : Nat,
      CalculateNextRequiredDrivingScore pindexLast nFirstBlockTime params = some s ∧
      (s : Int) = specNextRequiredScore
        (params.targetBlockSpacing * params.difficultyAdjustmentInterval)
        (pindexLast.GetBlockTime - nFirstBlockTime)) ∧
    (let T := params.targetBlockSpacing * params.difficultyAdjustmentInterval
     let a := clampedTimespan T (pindexLast.GetBlockTime - nFirstBlockTime)
     (a < T → 0 ≤ Int.tdiv (T * 100) a ∧ 500 * Int.tdiv (T * 100) a < 2 ^ 32) ∧
     (T ≤ a → 0 < Int.tdiv (a * 100) T ∧ Int.tdiv (a * 100) T < 2 ^ 32)) := by
  obtain ⟨hlo, hhi, -, -, hp⟩ := clampedTimespan_bounds
    (params.targetBlockSpacing * params.difficultyAdjustmentInterval)
    (pindexLast.GetBlockTime - nFirstBlockTime) (by omega)
  have hpos := hp (Or.inl hT)
  clear hp
  refine ⟨calculateNext_eq_spec pindexLast nFirstBlockTime params _ _ rfl rfl (by omega)
    hB hA hd1 hd2 (Or.inl hT), ?_⟩
  simp only []
  generalize clampedTimespan (params.targetBlockSpacing * params.difficultyAdjustmentInterval)
    (pindexLast.GetBlockTime - nFirstBlockTime) = a at hlo hhi hpos hA
  generalize params.targetBlockSpacing * params.difficultyAdjustmentInterval = T at *
  constructor
  · intro hlt
    obtain ⟨q1, q2⟩ := fast_ratio_bounds T a hpos hlo hlt
    rw [Int.tdiv_eq_ediv (by omega) (by omega)]
    omega
  · intro hle
    obtain ⟨q1, q2⟩ := slow_ratio_bounds T a (by omega) hhi hle
    rw [Int.tdiv_eq_ediv (by omega) (by omega)]
    omega

theorem calculateNextRequiredDrivingScore_eq_spec_witness :
    ∃ s : Nat,
      CalculateNextRequiredDrivingScore (mkIndex 2015 907200) 0 defaultParams = some s ∧
      (s : Int) = specNextRequiredScore (300 * 2016) (907200 - 0) :=
  (calculateNextRequiredDrivingScore_eq_spec (mkIndex 2015 907200) 0 defaultParams
    (by decide) (by decide) (by decide) (by decide) (by decide)).1

/-- C12, as stated, fails: with a target timespan of `2 ^ 62` the product
`nTargetTimespan * 4` overflows, and neither function has a result. -/
theorem retarget_clamp_overflow :
    ¬ ∀ (pindexLast : CBlockIndex) (nFirstBlockTime : Int) (params : SafeDrivingParams),
        -(2 : Int) ^ 63 ≤ params.targetBlockSpacing * params.difficultyAdjustmentInterval →
        params.targetBlockSpacing * params.difficultyAdjustmentInterval < 2 ^ 63 →
        4 ≤ params.targetBlockSpacing * params.difficultyAdjustmentInterval →
        ∃ s : Nat,
          CalculateNextRequiredDrivingScore pindexLast nFirstBlockTime params = some s ∧
          200 ≤ s ∧ s ≤ 900 := by
  intro h
  obtain ⟨s, hs, -⟩ := h (mkIndex 0 0) 0 hugeParams (by decide) (by decide) (by decide)
  rw [show CalculateNextRequiredDrivingScore (mkIndex 0 0) 0 hugeParams = none by decide] at hs
  cases hs

/-- C12, amended: for every params with `T = targetBlockSpacing *
difficultyAdjustmentInterval >= 4` such that `T*100` fits in 64 bits,
`CalculateNextRequiredDrivingScore` returns a value in `[200, 900]` for every
tip time and first-block time whose difference (zero, negative or large) fits
in 64 bits and whose clamped timespan `a` is such that `a*100` fits in 64 bits
(as it does whenever `T*400` fits, and for any two 32-bit block times); and so
does `GetNextRequiredDrivingScore` for every tip whose height plus one is an
`int` and whose resolved ancestors have such times. -/
theorem nextRequiredDrivingScore_range (pindexLast : CBlockIndex)
    (GetAncestor : Int → Option CBlockIndex) (nFirstBlockTime : Int)
    (params : SafeDrivingParams)
    (hT : 4 ≤ params.targetBlockSpacing * params.difficultyAdjustmentInterval)
    (hB : params.targetBlockSpacing * params.difficultyAdjustmentInterval * 100 < 2 ^ 63) :
    (-(2 : Int) ^ 63 ≤ pindexLast.GetBlockTime - nFirstBlockTime →
      pindexLast.GetBlockTime - nFirstBlockTime < 2 ^ 63 →
      clampedTimespan (params.targetBlockSpacing * params.difficultyAdjustmentInterval)
        (pindexLast.GetBlockTime - nFirstBlockTime) * 100 < 2 ^ 63 →
      ∃ s : Nat,
        CalculateNextRequiredDrivingScore pindexLast nFirstBlockTime params = some s ∧
        200 ≤ s ∧ s ≤ 900) ∧
    (-(2 : Int) ^ 31 ≤ pindexLast.nHeight → pindexLast.nHeight + 1 < 2 ^ 31 →
      (∀ n pindexFirst, GetAncestor n = some pindexFirst →
        -(2 : Int) ^ 63 ≤ pindexLast.GetBlockTime - pindexFirst.GetBlockTime ∧
        pindexLast.GetBlockTime - pindexFirst.GetBlockTime < 2 ^ 63 ∧
        clampedTimespan (params.targetBlockSpacing * params.difficultyAdjustmentInterval)
          (pindexLast.GetBlockTime - pindexFirst.GetBlockTime) * 100 < 2 ^ 63) →
      ∃ s : Nat,
        GetNextRequiredDrivingScore pindexLast GetAncestor params = some s ∧
        200 ≤ s ∧ s ≤ 900) := by
  have key : ∀ first : Int, -(2 : Int) ^ 63 ≤ pindexLast.GetBlockTime - first →
      pindexLast.GetBlockTime - first < 2 ^ 63 →
      clampedTimespan (params.targetBlockSpacing * params.difficultyAdjustmentInterval)
        (pindexLast.GetBlockTime - first) * 100 < 2 ^ 63 →
      ∃ s : Nat, CalculateNextRequiredDrivingScore pindexLast first params = some s ∧
        200 ≤ s ∧ s ≤ 900 := by
    intro first hd1 hd2 hA
    obtain ⟨s, hs, he⟩ := calculateNext_eq_spec pindexLast first params _ _ rfl rfl
      (by omega) hB hA hd1 hd2 (Or.inl hT)
    have hr := specNextRequiredScore_range
      (params.targetBlockSpacing * params.difficultyAdjustmentInterval)
      (pindexLast.GetBlockTime - first)
    exact ⟨s, hs, by omega, by omega⟩
  refine ⟨key nFirstBlockTime, fun hh1 hh2 hanc => ?_⟩
  obtain ⟨hi, hi1, hi2⟩ := interval_bounds params _ rfl (by omega)
  by_cases hm : (pindexLast.nHeight + 1) % params.difficultyAdjustmentInterval = 0
  · rw [getNext_boundary pindexLast GetAncestor params hh1 hh2 hi (by omega) (by omega) hm]
    split_ifs with hn
    · exact ⟨500, rfl, by omega, by omega⟩
    · cases hanc' : GetAncestor
          (toI32 (pindexLast.nHeight + 1 - params.difficultyAdjustmentInterval)) with
      | none => exact ⟨500, rfl, by omega, by omega⟩
      | some pindexFirst =>
        obtain ⟨b1, b2, b3⟩ := hanc _ _ hanc'
        exact key pindexFirst.GetBlockTime b1 b2 b3
  · rw [getNext_not_boundary pindexLast GetAncestor params hh1 hh2 hi hm]
    exact ⟨500, rfl, by omega, by omega⟩

theorem nextRequiredDrivingScore_range_witness :
    (∃ s : Nat, CalculateNextRequiredDrivingScore (mkIndex 2015 40000000) 40005000 defaultParams =
      some s ∧ 200 ≤ s ∧ s ≤ 900) ∧
    (∃ s : Nat, GetNextRequiredDrivingScore (mkIndex 2015 40000000) flatChain defaultParams =
      some s ∧ 200 ≤ s ∧ s ≤ 900) :=
  have h := nextRequiredDrivingScore_range (mkIndex 2015 40000000) flatChain 40005000
    defaultParams (by decide) (by decide)
  ⟨h.1 (by decide) (by decide) (by decide), h.2 (by decide) (by decide) (fun n p hp => by
    have e : p.GetBlockTime = 0 := by
      unfold flatChain at hp
      cases hp
      rfl
    rw [e]
    decide)⟩

/-- C13: `GetNextRequiredDrivingScore` returns the base value 500 for every
tip with `(tipHeight + 1) mod difficultyAdjustmentInterval != 0`, whatever the
block times are, and for every boundary tip for which
`tipHeight + 1 - difficultyAdjustmentInterval < 0` or whose ancestor at that
height is not resolved.  The heights `tipHeight + 1` and
`tipHeight + 1 - difficultyAdjustmentInterval` are values of an `int`, and the
interval of the modulus is not zero. -/
theorem getNextRequiredDrivingScore_base (pindexLast : CBlockIndex)
    (GetAncestor : Int → Option CBlockIndex) (params : SafeDrivingParams)
    (hh1 : -(2 : Int) ^ 31 ≤ pindexLast.nHeight) (hh2 : pindexLast.nHeight + 1 < 2 ^ 31)
    (hi : params.difficultyAdjustmentInterval ≠ 0) :
    ((pindexLast.nHeight + 1) % params.difficultyAdjustmentInterval ≠ 0 →
      GetNextRequiredDrivingScore pindexLast GetAncestor params = some 500) ∧
    ((pindexLast.nHeight + 1) % params.difficultyAdjustmentInterval = 0 →
      -(2 : Int) ^ 31 ≤ pindexLast.nHeight + 1 - params.difficultyAdjustmentInterval →
      pindexLast.nHeight + 1 - params.difficultyAdjustmentInterval < 2 ^ 31 →
      (pindexLast.nHeight + 1 - params.difficultyAdjustmentInterval < 0 ∨
        GetAncestor (pindexLast.nHeight + 1 - params.difficultyAdjustmentInterval) = none) →
      GetNextRequiredDrivingScore pindexLast GetAncestor params = some 500) := by
  refine ⟨getNext_not_boundary pindexLast GetAncestor params hh1 hh2 hi, ?_⟩
  intro hm hf1 hf2 hc
  rw [getNext_boundary pindexLast GetAncestor params hh1 hh2 hi (by omega) (by omega) hm,
    toI32_of_fits hf1 hf2]
  rcases hc with hc | hc
  · rw [if_pos hc]
  · rw [hc]
    split_ifs <;> rfl

theorem getNextRequiredDrivingScore_base_witness :
    GetNextRequiredDrivingScore (mkIndex 2014 40000000) flatChain defaultParams = some 500 ∧
      GetNextRequiredDrivingScore (mkIndex (-1) 40000000) flatChain defaultParams = some 500 ∧
      GetNextRequiredDrivingScore (mkIndex 2015 40000000) emptyChain defaultParams = some 500 :=
  ⟨(getNextRequiredDrivingScore_base (mkIndex 2014 40000000) flatChain defaultParams
      (by decide) (by decide) (by decide)).1 (by decide),
    (getNextRequiredDrivingScore_base (mkIndex (-1) 40000000) flatChain defaultParams
      (by decide) (by decide) (by decide)).2 (by decide) (by decide) (by decide)
      (Or.inl (by decide)),
    (getNextRequiredDrivingScore_base (mkIndex 2015 40000000) emptyChain defaultParams
      (by decide) (by decide) (by decide)).2 (by decide) (by decide) (by decide)
      (Or.inr rfl)⟩

/-- C14, as stated, fails: with `targetBlockSpacing = 2 ^ 62` and
`difficultyAdjustmentInterval = 1`, both positive, and an actual timespan equal
to the target, `nTargetTimespan * 4` overflows and the code has no result. -/
theorem on_target_overflow :
    ¬ ∀ (pindexLast : CBlockIndex) (nFirstBlockTime : Int) (params : SafeDrivingParams),
        0 < params.targetBlockSpacing → 0 < params.difficultyAdjustmentInterval →
        params.targetBlockSpacing < 2 ^ 63 → params.difficultyAdjustmentInterval < 2 ^ 63 →
        pindexLast.GetBlockTime - nFirstBlockTime =
          params.targetBlockSpacing * params.difficultyAdjustmentInterval →
        CalculateNextRequiredDrivingScore pindexLast nFirstBlockTime params = some 500 := by
  intro h
  exact absurd (h (mkIndex 0 (2 ^ 62)) 0 hugeParams (by decide) (by decide) (by decide)
    (by decide) (by decide)) (by decide)

/-- C14, amended: for every params with positive `targetBlockSpacing` and
`difficultyAdjustmentInterval` whose target timespan `T` is such that `T*100`
fits in 64 bits (e.g. 300 and 2016), if the actual timespan
`tipTime - firstTime` equals `T` exactly, `CalculateNextRequiredDrivingScore`
returns 500. -/
theorem calculateNextRequiredDrivingScore_on_target (pindexLast : CBlockIndex)
    (nFirstBlockTime : Int) (params : SafeDrivingParams)
    (hs : 0 < params.targetBlockSpacing) (hi : 0 < params.difficultyAdjustmentInterval)
    (hB : params.targetBlockSpacing * params.difficultyAdjustmentInterval * 100 < 2 ^ 63)
    (hd : pindexLast.GetBlockTime - nFirstBlockTime =
      params.targetBlockSpacing * params.difficultyAdjustmentInterval) :
    CalculateNextRequiredDrivingScore pindexLast nFirstBlockTime params = some 500 := by
  have hpos : 0 < params.targetBlockSpacing * params.difficultyAdjustmentInterval :=
    Int.mul_pos hs hi
  obtain ⟨hc, hv⟩ := specNextRequiredScore_on_target
    (params.targetBlockSpacing * params.difficultyAdjustmentInterval) (by omega)
  obtain ⟨s, hs, he⟩ := calculateNext_eq_spec pindexLast nFirstBlockTime params
    (params.targetBlockSpacing * params.difficultyAdjustmentInterval)
    (params.targetBlockSpacing * params.difficultyAdjustmentInterval) rfl hd.symm
    (by omega) hB (by rw [hc]; exact hB) (by omega) (by omega) (Or.inr (by omega))
  rw [hv] at he
  rw [hs]
  congr 1
  omega

theorem calculateNextRequiredDrivingScore_on_target_witness :
    CalculateNextRequiredDrivingScore (mkIndex 2015 604800) 0 defaultParams = some 500 :=
  calculateNextRequiredDrivingScore_on_target (mkIndex 2015 604800) 0 defaultParams
    (by decide) (by decide) (by decide) (by decide)

/-- C15, as stated, fails: with a target timespan of `2 ^ 62` and an actual
timespan of 0, below the target, the code has no result. -/
theorem retarget_direction_overflow :
    ¬ ∀ (pindexLast : CBlockIndex) (nFirstBlockTime : Int) (params : SafeDrivingParams),
        4 ≤ params.targetBlockSpacing * params.difficultyAdjustmentInterval →
        params.targetBlockSpacing * params.difficultyAdjustmentInterval < 2 ^ 63 →
        (pindexLast.GetBlockTime - nFirstBlockTime <
            params.targetBlockSpacing * params.difficultyAdjustmentInterval →
          ∃ s : Nat,
            CalculateNextRequiredDrivingScore pindexLast nFirstBlockTime params = some s ∧
            500 ≤ s ∧ s ≤ 900) ∧
        (params.targetBlockSpacing * params.difficultyAdjustmentInterval ≤
            pindexLast.GetBlockTime - nFirstBlockTime →
          ∃ s : Nat,
            CalculateNextRequiredDrivingScore pindexLast nFirstBlockTime params = some s ∧
            200 ≤ s ∧ s ≤ 500) := by
  intro h
  obtain ⟨s, hs, -⟩ := (h (mkIndex 0 0) 0 hugeParams (by decide) (by decide)).1 (by decide)
  rw [show CalculateNextRequiredDrivingScore (mkIndex 0 0) 0 hugeParams = none by decide] at hs
  cases hs

/-- C15, amended: for every params with target timespan `T >= 4` such that
`T*100` fits in 64 bits, and every tip time and first-block time whose
difference fits in 64 bits and whose clamped timespan `a` is such that `a*100`
fits in 64 bits (as it does whenever `T*400` fits, and for any two 32-bit block
times): if the actual timespan is strictly less than `T`,
`CalculateNextRequiredDrivingScore` returns a value in `[500, 900]`, and if it
is at least `T`, a value in `[200, 500]`. -/
theorem calculateNextRequiredDrivingScore_direction (pindexLast : CBlockIndex)
    (nFirstBlockTime : Int) (params : SafeDrivingParams)
    (hT : 4 ≤ params.targetBlockSpacing * params.difficultyAdjustmentInterval)
    (hB : params.targetBlockSpacing * params.difficultyAdjustmentInterval * 100 < 2 ^ 63)
    (hd1 : -(2 : Int) ^ 63 ≤ pindexLast.GetBlockTime - nFirstBlockTime)
    (hd2 : pindexLast.GetBlockTime - nFirstBlockTime < 2 ^ 63)
    (hA : clampedTimespan (params.targetBlockSpacing * params.difficultyAdjustmentInterval)
      (pindexLast.GetBlockTime - nFirstBlockTime) * 100 < 2 ^ 63) :
    (pindexLast.GetBlockTime - nFirstBlockTime <
        params.targetBlockSpacing * params.difficultyAdjustmentInterval →
      ∃ s : Nat,
        CalculateNextRequiredDrivingScore pindexLast nFirstBlockTime params = some s ∧
        500 ≤ s ∧ s ≤ 900) ∧
    (params.targetBlockSpacing * params.difficultyAdjustmentInterval ≤
        pindexLast.GetBlockTime - nFirstBlockTime →
      ∃ s : Nat,
        CalculateNextRequiredDrivingScore pindexLast nFirstBlockTime params = some s ∧
        200 ≤ s ∧ s ≤ 500) := by
  obtain ⟨s, hs, he⟩ := calculateNext_eq_spec pindexLast nFirstBlockTime params _ _ rfl rfl
    (by omega) hB hA hd1 hd2 (Or.inl hT)
  have hr := specNextRequiredScore_range
    (params.targetBlockSpacing * params.difficultyAdjustmentInterval)
    (pindexLast.GetBlockTime - nFirstBlockTime)
  constructor
  · intro hlt
    have := specNextRequiredScore_fast _ _ (by omega) (Or.inl hT) hlt
    exact ⟨s, hs, by omega, by omega⟩
  · intro hle
    have := specNextRequiredScore_slow _ _ (by omega) hle
    exact ⟨s, hs, by omega, by omega⟩

theorem calculateNextRequiredDrivingScore_direction_witness :
    (∃ s : Nat, CalculateNextRequiredDrivingScore (mkIndex 2015 500000) 0 defaultParams =
      some s ∧ 500 ≤ s ∧ s ≤ 900) ∧
    (∃ s : Nat, CalculateNextRequiredDrivingScore (mkIndex 2015 700000) 0 defaultParams =
      some s ∧ 200 ≤ s ∧ s ≤ 500) :=
  ⟨(calculateNextRequiredDrivingScore_direction (mkIndex 2015 500000) 0 defaultParams
      (by decide) (by decide) (by decide) (by decide) (by decide)).1 (by decide),
    (calculateNextRequiredDrivingScore_direction (mkIndex 2015 700000) 0 defaultParams
      (by decide) (by decide) (by decide) (by decide) (by decide)).2 (by decide)⟩

/-! ## Lemmas on monotonicity of the scoring steps -/

theorem brakeStep_mono (r r' : CDrivingData) (s t : Nat) (hst : s ≤ t) (ht : t ≤ 1000)
    (hb : r.hardBrakes ≤ r'.hardBrakes) (hr : r'.hardBrakes < 2 ^ 16) :
    r'.brakeStep s ≤ r.brakeStep t := by
  have e1 := (brakeStep_spec r' s hr (by omega)).1
  have e2 := (brakeStep_spec r t (by omega) ht).1
  unfold specStep5 at e1 e2
  omega

theorem accelStep_mono (r r' : CDrivingData) (s t : Nat) (hst : s ≤ t) (ht : t ≤ 1000)
    (hb : r.hardAccel ≤ r'.hardAccel) (hr : r'.hardAccel < 2 ^ 16) :
    r'.accelStep s ≤ r.accelStep t := by
  have e1 := (accelStep_spec r' s hr (by omega)).1
  have e2 := (accelStep_spec r t (by omega) ht).1
  unfold specStep6 at e1 e2
  omega

theorem violationStep_mono (r r' : CDrivingData) (s t : Nat) (hst : s ≤ t) (ht : t ≤ 1000)
    (hb : r.speedViolations ≤ r'.speedViolations) (hr : r'.speedViolations < 2 ^ 8) :
    r'.violationStep s ≤ r.violationStep t := by
  have e1 := (violationStep_spec r' s hr (by omega)).1
  have e2 := (violationStep_spec r t (by omega) ht).1
  unfold specStep7 at e1 e2
  omega

theorem distanceBonus_eq (r : CDrivingData) (hr : r.distance < 2 ^ 32) :
    r.distanceBonus = min (r.distance / 1000 * 10) 200 := by
  unfold distanceBonus mul32 u32
  rw [Nat.mod_eq_of_lt (by omega)]

theorem durationBonus_eq (r : CDrivingData) (hr : r.duration < 2 ^ 32) :
    r.durationBonus = min (r.duration / 60 * 5) 100 := by
  unfold durationBonus mul32 u32
  rw [Nat.mod_eq_of_lt (by omega)]

theorem distanceStep_mono (r r' : CDrivingData) (s t : Nat) (hst : s ≤ t) (ht : t ≤ 1000)
    (hd : r.distance ≤ r'.distance) (hr : r'.distance < 2 ^ 32) :
    r.distanceStep s ≤ r'.distanceStep t := by
  have h1 : r.distance / 1000 ≤ r'.distance / 1000 := Nat.div_le_div_right hd
  unfold distanceStep add32 u32
  rw [distanceBonus_eq r (by omega), distanceBonus_eq r' hr]
  have b1 : min (r.distance / 1000 * 10) 200 ≤ min (r'.distance / 1000 * 10) 200 := by omega
  have b2 : min (r'.distance / 1000 * 10) 200 ≤ 200 := by omega
  generalize min (r.distance / 1000 * 10) 200 = x at b1 b2 ⊢
  generalize min (r'.distance / 1000 * 10) 200 = y at b1 b2 ⊢
  rw [Nat.mod_eq_of_lt (by omega), Nat.mod_eq_of_lt (by omega)]
  omega

theorem durationStep_mono (r r' : CDrivingData) (s t : Nat) (hst : s ≤ t) (ht : t ≤ 1000)
    (hd : r.duration ≤ r'.duration) (hr : r'.duration < 2 ^ 32) :
    r.durationStep s ≤ r'.durationStep t := by
  have h1 : r.duration / 60 ≤ r'.duration / 60 := Nat.div_le_div_right hd
  unfold durationStep add32 u32
  rw [durationBonus_eq r (by omega), durationBonus_eq r' hr]
  have b1 : min (r.duration / 60 * 5) 100 ≤ min (r'.duration / 60 * 5) 100 := by omega
  have b2 : min (r'.duration / 60 * 5) 100 ≤ 100 := by omega
  generalize min (r.duration / 60 * 5) 100 = x at b1 b2 ⊢
  generalize min (r'.duration / 60 * 5) 100 = y at b1 b2 ⊢
  rw [Nat.mod_eq_of_lt (by omega), Nat.mod_eq_of_lt (by omega)]
  omega

/-- The running score is at most 1000 after the speed steps. -/
theorem speedSteps_le (r : CDrivingData) (hr : r.InRange) :
    r.idealSpeedStep (r.avgSpeedStep (r.maxSpeedStep 1000)) ≤ 1000 :=
  (scoreBody_spec r hr).2 _ (by simp [runningScores])

/-- The score body does not increase when the three event counts grow, and does
not decrease when distance and duration grow, the speeds being equal. -/
theorem scoreBody_mono (r r' : CDrivingData) (hr : r.InRange) (hr' : r'.InRange)
    (hm : r'.maxSpeed = r.maxSpeed) (ha : r'.avgSpeed = r.avgSpeed)
    (h1 : r.hardBrakes ≤ r'.hardBrakes) (h2 : r.hardAccel ≤ r'.hardAccel)
    (h3 : r.speedViolations ≤ r'.speedViolations)
    (h4 : r'.distance ≤ r.distance) (h5 : r'.duration ≤ r.duration) :
    r'.scoreBody ≤ r.scoreBody := by
  have hs := (scoreBody_spec r hr).2
  have e : r'.idealSpeedStep (r'.avgSpeedStep (r'.maxSpeedStep 1000)) =
      r.idealSpeedStep (r.avgSpeedStep (r.maxSpeedStep 1000)) := by
    unfold idealSpeedStep avgSpeedStep maxSpeedStep
    rw [hm, ha]
  have b4 := speedSteps_le r hr
  have b5 : r.brakeStep (r.idealSpeedStep (r.avgSpeedStep (r.maxSpeedStep 1000))) ≤ 1000 :=
    hs _ (by simp [runningScores])
  have b6 : r.accelStep (r.brakeStep (r.idealSpeedStep (r.avgSpeedStep
      (r.maxSpeedStep 1000)))) ≤ 1000 := hs _ (by simp [runningScores])
  have b7 : r.violationStep (r.accelStep (r.brakeStep (r.idealSpeedStep
      (r.avgSpeedStep (r.maxSpeedStep 1000))))) ≤ 1000 := hs _ (by simp [runningScores])
  have b8 : r.distanceStep (r.violationStep (r.accelStep (r.brakeStep (r.idealSpeedStep
      (r.avgSpeedStep (r.maxSpeedStep 1000)))))) ≤ 1000 := hs _ (by simp [runningScores])
  obtain ⟨-, -, hdist, hdur, -, -, -, -, -, -⟩ := hr
  obtain ⟨-, -, -, -, -, -, hbr, hac, hvi, -⟩ := hr'
  unfold scoreBody
  rw [e]
  exact durationStep_mono r' r _ _
    (distanceStep_mono r' r _ _
      (violationStep_mono r r' _ _
        (accelStep_mono r r' _ _
          (brakeStep_mono r r' _ _ (le_refl _) b4 h1 hbr) b5 h2 hac) b6 h3 hvi) b7 h4 hdist)
    b8 h5 hdur

/-! ## Block binding -/

/-- C16: `VerifyDrivingScore(block)` returns true if and only if
`block.drivingScore` equals `CalculateDrivingScore(block.drivingData)`; a block
whose `drivingScore` is set to the score of its own record passes, and every
other committed value fails. -/
theorem verifyDrivingScore_iff {Tx : Type} (block : CBlock Tx) :
    (VerifyDrivingScore block = some true ↔
      block.drivingData.CalculateDrivingScore = some block.drivingScore) ∧
    ∀ s, block.drivingData.CalculateDrivingScore = some s →
      VerifyDrivingScore { block with drivingScore := s } = some true ∧
      ∀ v, v ≠ s → VerifyDrivingScore { block with drivingScore := v } = some false := by
  constructor
  · unfold VerifyDrivingScore
    cases block.drivingData.CalculateDrivingScore with
    | none => simp
    | some c =>
      simp only [ne_eq, ite_not, Option.some.injEq]
      split_ifs with h
      · simp [h]
      · simp [h]
  · intro s hs
    unfold VerifyDrivingScore
    simp only [hs, ne_eq, not_true_eq_false, if_false, true_and]
    intro v hv
    rw [if_pos (fun h => hv h.symm)]

theorem verifyDrivingScore_iff_witness :
    VerifyDrivingScore (mkBlock steadyRecord 0 1000) = some true ∧
      VerifyDrivingScore (mkBlock steadyRecord 0 999) = some false :=
  have h := (verifyDrivingScore_iff (mkBlock steadyRecord 0 0)).2 1000 (by decide)
  ⟨h.1, h.2 999 (by decide)⟩

/-- C17: for a record hash that is a fixed function `GetHash` of the record,
`CheckDrivingDataHash(block)` returns true if and only if
`block.hashDrivingData` equals `GetHash(block.drivingData)`; a block whose
`hashDrivingData` is set to the hash of its own record passes, and two blocks
with the same record and the same `hashDrivingData` get the same result,
whatever their other header fields and transactions. -/
theorem checkDrivingDataHash_iff {Tx : Type} (GetHash : CDrivingData → Nat)
    (block block' : CBlock Tx) :
    (CheckDrivingDataHash GetHash block = true ↔
      block.hashDrivingData = GetHash block.drivingData) ∧
    CheckDrivingDataHash GetHash
      { block with hashDrivingData := GetHash block.drivingData } = true ∧
    (block.drivingData = block'.drivingData →
      block.hashDrivingData = block'.hashDrivingData →
      CheckDrivingDataHash GetHash block = CheckDrivingDataHash GetHash block') := by
  refine ⟨?_, ?_, ?_⟩
  · unfold CheckDrivingDataHash
    simp only [ne_eq, ite_not]
    split_ifs with h
    · simp [h]
    · simp only [Bool.false_eq_true, false_iff]
      exact fun e => h e.symm
  · unfold CheckDrivingDataHash
    simp
  · intro h1 h2
    unfold CheckDrivingDataHash
    rw [h1, h2]

theorem checkDrivingDataHash_iff_witness :
    CheckDrivingDataHash (fun r => r.distance + 7) (mkBlock steadyRecord 6007 0) = true ∧
      CheckDrivingDataHash (fun r => r.distance + 7) (mkBlock steadyRecord 6007 0) =
        CheckDrivingDataHash (fun r => r.distance + 7)
          { mkBlock steadyRecord 6007 1000 with nNonce := 5, vtx := [1, 2] } :=
  have h := checkDrivingDataHash_iff (fun r => r.distance + 7) (mkBlock steadyRecord 6007 0)
    { mkBlock steadyRecord 6007 1000 with nNonce := 5, vtx := [1, 2] }
  ⟨h.1.2 rfl, h.2.2 rfl rfl⟩

/-! ## Monotonicity of the score -/

/-- Two records with the same validity verdict, the second with the smaller
score body: the second never scores more than the first. -/
theorem calculateDrivingScore_mono (r r' : CDrivingData) (hv : r'.IsValid = r.IsValid)
    (hb : r'.scoreBody ≤ r.scoreBody) (s s' : Nat) (hs : r.CalculateDrivingScore = some s)
    (hs' : r'.CalculateDrivingScore = some s') : s' ≤ s := by
  cases hi : r.IsValid with
  | none =>
    unfold CalculateDrivingScore at hs
    rw [hi] at hs
    cases hs
  | some b =>
    rw [calculateDrivingScore_of_isValid r b hi] at hs
    rw [calculateDrivingScore_of_isValid r' b (hv.trans hi)] at hs'
    cases b
    · simp at hs hs'
      omega
    · simp at hs hs'
      omega

/-- A record that `IsValid` accepts scores at least as much as a record with
the smaller score body, whatever the verdict on the latter. -/
theorem calculateDrivingScore_le_of_valid (r r' : CDrivingData)
    (hv : r'.IsValid = some true) (hb : r.scoreBody ≤ r'.scoreBody) :
    ∃ s', r'.CalculateDrivingScore = some s' ∧
      ∀ s, r.CalculateDrivingScore = some s → s ≤ s' := by
  refine ⟨r'.scoreBody, by rw [calculateDrivingScore_of_isValid r' true hv]; rfl, ?_⟩
  intro s hs
  cases hi : r.IsValid with
  | none =>
    unfold CalculateDrivingScore at hs
    rw [hi] at hs
    cases hs
  | some b =>
    rw [calculateDrivingScore_of_isValid r b hi] at hs
    cases b
    · simp at hs
      omega
    · simp at hs
      omega

/-- C18: for two records of the declared field types that are identical except
that the second has a larger `hardBrakes` (or a larger `hardAccel`, or a larger
`speedViolations`), `IsValid` gives the same verdict on both and
`CalculateDrivingScore` of the second is at most that of the first. -/
theorem penalty_monotone (r : CDrivingData) (n : Nat) (hr : r.InRange) :
    (r.hardBrakes ≤ n → ({ r with hardBrakes := n }).InRange →
      ({ r with hardBrakes := n }).IsValid = r.IsValid ∧
      ∀ s s', r.CalculateDrivingScore = some s →
        ({ r with hardBrakes := n }).CalculateDrivingScore = some s' → s' ≤ s) ∧
    (r.hardAccel ≤ n → ({ r with hardAccel := n }).InRange →
      ({ r with hardAccel := n }).IsValid = r.IsValid ∧
      ∀ s s', r.CalculateDrivingScore = some s →
        ({ r with hardAccel := n }).CalculateDrivingScore = some s' → s' ≤ s) ∧
    (r.speedViolations ≤ n → ({ r with speedViolations := n }).InRange →
      ({ r with speedViolations := n }).IsValid = r.IsValid ∧
      ∀ s s', r.CalculateDrivingScore = some s →
        ({ r with speedViolations := n }).CalculateDrivingScore = some s' → s' ≤ s) := by
  refine ⟨fun h hr' => ⟨rfl, ?_⟩, fun h hr' => ⟨rfl, ?_⟩, fun h hr' => ⟨rfl, ?_⟩⟩
  · exact calculateDrivingScore_mono r _ rfl
      (scoreBody_mono r _ hr hr' rfl rfl h (le_refl _) (le_refl _) (le_refl _) (le_refl _))
  · exact calculateDrivingScore_mono r _ rfl
      (scoreBody_mono r _ hr hr' rfl rfl (le_refl _) h (le_refl _) (le_refl _) (le_refl _))
  · exact calculateDrivingScore_mono r _ rfl
      (scoreBody_mono r _ hr hr' rfl rfl (le_refl _) (le_refl _) h (le_refl _) (le_refl _))

theorem penalty_monotone_witness :
    steadyRecord.CalculateDrivingScore = some 1000 ∧
      ({ steadyRecord with hardBrakes := 40 }).CalculateDrivingScore = some 295 ∧
      (295 : Nat) ≤ 1000 :=
  ⟨by decide, by decide,
    ((penalty_monotone steadyRecord 40 (by decide)).1 (by decide) (by decide)).2 1000 295
      (by decide) (by decide)⟩

/-- C19, as stated, fails: `steadyRecord` with ten times the distance, and
`steadyRecord` with ten times the duration, are rejected by the speed sanity
check of `IsValid`; both score 0 where `steadyRecord` scores 1000. -/
theorem bonus_monotone_fails :
    (¬ ∀ (r : CDrivingData) (n : Nat), r.InRange → r.distance ≤ n →
        ({ r with distance := n }).InRange →
        ∀ s s', r.CalculateDrivingScore = some s →
          ({ r with distance := n }).CalculateDrivingScore = some s' → s ≤ s') ∧
    (¬ ∀ (r : CDrivingData) (n : Nat), r.InRange → r.duration ≤ n →
        ({ r with duration := n }).InRange →
        ∀ s s', r.CalculateDrivingScore = some s →
          ({ r with duration := n }).CalculateDrivingScore = some s' → s ≤ s') := by
  constructor
  · intro h
    exact absurd (h steadyRecord 60000 (by decide) (by decide) (by decide) 1000 0
      (by decide) (by decide)) (by decide)
  · intro h
    exact absurd (h steadyRecord 6000 (by decide) (by decide) (by decide) 1000 0
      (by decide) (by decide)) (by decide)

/-- C19, amended: for two records of the declared field types that are
identical except that the second has a larger `distance` (or a larger
`duration`), if `IsValid` accepts the second record then
`CalculateDrivingScore` of the second is at least that of the first. -/
theorem bonus_monotone_of_valid (r : CDrivingData) (n : Nat) (hr : r.InRange) :
    (r.distance ≤ n → ({ r with distance := n }).InRange →
      ({ r with distance := n }).IsValid = some true →
      ∃ s', ({ r with distance := n }).CalculateDrivingScore = some s' ∧
        ∀ s, r.CalculateDrivingScore = some s → s ≤ s') ∧
    (r.duration ≤ n → ({ r with duration := n }).InRange →
      ({ r with duration := n }).IsValid = some true →
      ∃ s', ({ r with duration := n }).CalculateDrivingScore = some s' ∧
        ∀ s, r.CalculateDrivingScore = some s → s ≤ s') := by
  refine ⟨fun h hr' hv => ?_, fun h hr' hv => ?_⟩
  · exact calculateDrivingScore_le_of_valid r _ hv
      (scoreBody_mono _ r hr' hr rfl rfl (le_refl _) (le_refl _) (le_refl _) h (le_refl _))
  · exact calculateDrivingScore_le_of_valid r _ hv
      (scoreBody_mono _ r hr' hr rfl rfl (le_refl _) (le_refl _) (le_refl _) (le_refl _) h)

theorem bonus_monotone_of_valid_witness :
    (mkRecord 1000 120 30 40 30 20 0).CalculateDrivingScore = some 120 ∧
      ∃ s', ({ mkRecord 1000 120 30 40 30 20 0 with distance := 1100 }).CalculateDrivingScore =
          some s' ∧
        ∀ s, (mkRecord 1000 120 30 40 30 20 0).CalculateDrivingScore = some s → s ≤ s' :=
  ⟨by decide, (bonus_monotone_of_valid (mkRecord 1000 120 30 40 30 20 0) 1100 (by decide)).1
    (by decide) (by decide) (by decide)⟩

/-- C20, as stated, fails: a record with the metrics of scenario C does not
score 220. -/
theorem scenarioC_score_ne_220 :
    ¬ ∀ r : CDrivingData, r.distance = 20000 → r.duration = 1200 → r.avgSpeed = 900 →
        r.maxSpeed = 900 → r.hardBrakes = 0 → r.hardAccel = 0 → r.speedViolations = 1 →
        r.routeHash ≠ 0 → r.driverPubKeyHash ≠ 0 → r.signature ≠ [] →
        r.CalculateDrivingScore = some 220 := by
  intro h
  exact absurd (h scenarioC rfl rfl rfl rfl rfl rfl rfl (by decide) (by decide) (by decide))
    (by decide)

/-- C20, amended: for a record with the metrics of scenario C (non-null hashes,
non-empty signature) the speed sanity check of `IsValid` fails, since the
computed speed `20000*36/(1200*10) = 60` is below `900*8/10 = 720`; so
`IsValid` returns false and `CalculateDrivingScore` returns 0.  The nine
scoring steps applied to these metrics give 400. -/
theorem scenarioC_rejected (r : CDrivingData) (h1 : r.distance = 20000)
    (h2 : r.duration = 1200) (h3 : r.avgSpeed = 900) (h4 : r.maxSpeed = 900)
    (h5 : r.hardBrakes = 0) (h6 : r.hardAccel = 0) (h7 : r.speedViolations = 1)
    (_h8 : r.routeHash ≠ 0) (_h9 : r.driverPubKeyHash ≠ 0) (_h10 : r.signature ≠ []) :
    r.IsValid = some false ∧ r.CalculateDrivingScore = some 0 ∧
      r.scoreBody = 400 ∧ specScore r = 400 := by
  have hv : r.IsValid = some false := by
    cases hv : r.IsValid with
    | none =>
      have := (isValid_eq_none r hv).2
      rw [h2] at this
      exact absurd this (by decide)
    | some b =>
      cases b
      · rfl
      · have := (isValid_eq_true_iff r).1 hv
        rw [h1, h2, h3] at this
        exact absurd this.2.2.2.2.2.2.2.2.2.1 (by decide)
  refine ⟨hv, ?_, ?_, ?_⟩
  · rw [calculateDrivingScore_of_isValid r false hv]
    rfl
  · simp only [scoreBody, durationStep, durationBonus, distanceStep, distanceBonus,
      violationStep, accelStep, brakeStep, idealSpeedStep, avgSpeedStep, maxSpeedStep,
      h1, h2, h3, h4, h5, h6, h7]
    decide
  · simp only [specScore, specStep9, specStep8, specStep7, specStep6, specStep5, specStep4,
      specStep3, specStep2, h1, h2, h3, h4, h5, h6, h7]
    decide

theorem scenarioC_rejected_witness :
    scenarioC.IsValid = some false ∧ scenarioC.CalculateDrivingScore = some 0 ∧
      scenarioC.scoreBody = 400 ∧ specScore scenarioC = 400 :=
  scenarioC_rejected scenarioC rfl rfl rfl rfl rfl rfl rfl (by decide) (by decide) (by decide)


/-! ## Lemmas on lower bounds of the score -/

/-- A record with a null route hash scores 0. -/
theorem calculateDrivingScore_of_null_routeHash (r : CDrivingData) (h : r.routeHash = 0) :
    r.CalculateDrivingScore = some 0 := by
  rw [calculateDrivingScore_of_isValid r false
    (isValid_eq_false_of_early r (Or.inr (Or.inr (Or.inr (Or.inr (Or.inl h))))))]
  rfl

/-- The two bonus steps, applied last, leave a score of at least 20 on a record
with the minimum distance and duration. -/
theorem scoreBody_ge_twenty (r : CDrivingData) (hr : r.InRange) (h1 : 1000 ≤ r.distance)
    (h2 : 120 ≤ r.duration) : 20 ≤ r.scoreBody := by
  have hs := (scoreBody_spec r hr).2
  have b7 : r.violationStep (r.accelStep (r.brakeStep (r.idealSpeedStep
      (r.avgSpeedStep (r.maxSpeedStep 1000))))) ≤ 1000 := hs _ (by simp [runningScores])
  obtain ⟨-, -, hdist, hdur, -⟩ := hr
  obtain ⟨e8, b8⟩ := distanceStep_spec r _ hdist b7
  obtain ⟨e9, -⟩ := durationStep_spec r _ hdur b8
  unfold scoreBody
  generalize r.violationStep (r.accelStep (r.brakeStep (r.idealSpeedStep
      (r.avgSpeedStep (r.maxSpeedStep 1000))))) = x at e8 e9 b7 b8 ⊢
  generalize r.distanceStep x = y at e8 e9 b8 ⊢
  generalize r.durationStep y = z at e9 ⊢
  unfold specStep8 at e8
  unfold specStep9 at e9
  omega

/-- Without speed penalty and violation, with at most five hard brakes and five
hard accelerations, the score is at least 845. -/
theorem scoreBody_ge_845 (r : CDrivingData) (hr : r.InRange) (h1 : 1000 ≤ r.distance)
    (h2 : 120 ≤ r.duration) (h3 : r.maxSpeed ≤ 800) (h4 : r.avgSpeed ≤ 800)
    (h5 : r.hardBrakes ≤ 5) (h6 : r.hardAccel ≤ 5) (h7 : r.speedViolations = 0) :
    845 ≤ r.scoreBody := by
  have he := (scoreBody_spec r hr).1
  have e2 : specStep2 r 1000 = 1000 := by
    unfold specStep2
    rw [if_neg (by omega)]
  have e3 : specStep3 r 1000 = 1000 := by
    unfold specStep3
    rw [if_neg (by omega)]
  have e4 : specStep4 r 1000 = 1000 := by
    unfold specStep4
    split_ifs <;> rfl
  unfold specScore at he
  rw [e2, e3, e4] at he
  unfold specStep9 specStep8 specStep7 specStep6 specStep5 at he
  omega

/-! ## Further properties of the score -/

/-- C21 fails on the code: whatever the seven metrics, the score reported by
`calculatedrivingscore` is 0, because the handler leaves both hashes null and
the signature empty and `IsValid` rejects such a record; for the metrics
6000, 600, 36, 40, 1, 1, 0 a session submitted with non-null hashes and a
signature (`steadyRecord`) scores 1000. -/
theorem calculatedrivingscore_reports_zero :
    (∀ (params : SafeDrivingParams)
        (distance duration avgSpeed maxSpeed hardBrakes hardAccel speedViolations : Nat),
        ∃ p, calculatedrivingscore params distance duration avgSpeed maxSpeed hardBrakes
            hardAccel speedViolations = some p ∧ p.score = 0) ∧
      calculatedrivingscore defaultParams 6000 600 36 40 1 1 0 =
        some { score := 0, rating := Rating.Poor, wouldBeAccepted := true } ∧
      steadyRecord = mkRecord 6000 600 36 40 1 1 0 ∧ steadyRecord.InRange ∧
      steadyRecord.routeHash ≠ 0 ∧ steadyRecord.driverPubKeyHash ≠ 0 ∧
      steadyRecord.signature ≠ [] ∧ steadyRecord.CalculateDrivingScore = some 1000 := by
  refine ⟨?_, by decide, rfl, by decide, by decide, by decide, by decide, by decide⟩
  intro params distance duration avgSpeed maxSpeed hardBrakes hardAccel speedViolations
  unfold calculatedrivingscore
  simp only []
  split
  · rename_i heq
    rw [calculateDrivingScore_of_null_routeHash _ rfl] at heq
    cases heq
  · rename_i score heq
    rw [calculateDrivingScore_of_null_routeHash _ rfl] at heq
    cases heq
    exact ⟨_, rfl, rfl⟩

/-- C22: for two records of the declared field types that are identical except
that the second has a larger `distance` (or a larger `duration`), if `IsValid`
accepts both records then both have a score and the score of the second is
at least the score of the first. -/
theorem bonus_monotone_among_valid (r : CDrivingData) (n : Nat) (hr : r.InRange)
    (hv : r.IsValid = some true) :
    (r.distance ≤ n → ({ r with distance := n }).InRange →
      ({ r with distance := n }).IsValid = some true →
      ∃ s s', r.CalculateDrivingScore = some s ∧
        ({ r with distance := n }).CalculateDrivingScore = some s' ∧ s ≤ s') ∧
    (r.duration ≤ n → ({ r with duration := n }).InRange →
      ({ r with duration := n }).IsValid = some true →
      ∃ s s', r.CalculateDrivingScore = some s ∧
        ({ r with duration := n }).CalculateDrivingScore = some s' ∧ s ≤ s') := by
  have hs : r.CalculateDrivingScore = some r.scoreBody := by
    rw [calculateDrivingScore_of_isValid r true hv]
    rfl
  constructor
  · intro h hr' hv'
    refine ⟨r.scoreBody, ({ r with distance := n }).scoreBody, hs, ?_, ?_⟩
    · rw [calculateDrivingScore_of_isValid _ true hv']
      rfl
    · exact scoreBody_mono _ r hr' hr rfl rfl (le_refl _) (le_refl _) (le_refl _) h (le_refl _)
  · intro h hr' hv'
    refine ⟨r.scoreBody, ({ r with duration := n }).scoreBody, hs, ?_, ?_⟩
    · rw [calculateDrivingScore_of_isValid _ true hv']
      rfl
    · exact scoreBody_mono _ r hr' hr rfl rfl (le_refl _) (le_refl _) (le_refl _) (le_refl _) h

theorem bonus_monotone_among_valid_witness :
    ∃ s s', floorRecord.CalculateDrivingScore = some s ∧
      ({ floorRecord with distance := 1200 }).CalculateDrivingScore = some s' ∧ s ≤ s' :=
  (bonus_monotone_among_valid floorRecord 1200 (by decide) (by decide)).1 (by decide)
    (by decide) (by decide)

/-- C23: there is a well-formed record, `steadyRecord`, on which applying the
distance and duration bonus steps before the three penalty steps gives 965,
where `CalculateDrivingScore` returns 1000. -/
theorem score_order_sensitive :
    ∃ r : CDrivingData, r.InRange ∧ r.IsValid = some true ∧
      r.CalculateDrivingScore = some 1000 ∧ reorderedScoreBody r = 965 ∧
      r.CalculateDrivingScore ≠ some (reorderedScoreBody r) :=
  ⟨steadyRecord, by decide, by decide, by decide, by decide, by decide⟩

/-- C24: two records that agree on the seven metrics, on whether the route hash
is null, on whether the driver key hash is null and on whether the signature is
empty get the same result from `IsValid` and from `CalculateDrivingScore`;
latitude, longitude, session start and the hash and signature bytes have no
influence. -/
theorem score_depends_on_metrics_only (r r' : CDrivingData)
    (h1 : r.distance = r'.distance) (h2 : r.duration = r'.duration)
    (h3 : r.avgSpeed = r'.avgSpeed) (h4 : r.maxSpeed = r'.maxSpeed)
    (h5 : r.hardBrakes = r'.hardBrakes) (h6 : r.hardAccel = r'.hardAccel)
    (h7 : r.speedViolations = r'.speedViolations)
    (h8 : r.routeHash = 0 ↔ r'.routeHash = 0)
    (h9 : r.driverPubKeyHash = 0 ↔ r'.driverPubKeyHash = 0)
    (h10 : r.signature = [] ↔ r'.signature = []) :
    r.IsValid = r'.IsValid ∧ r.CalculateDrivingScore = r'.CalculateDrivingScore := by
  have hv : r.IsValid = r'.IsValid := by
    unfold IsValid IsNull
    simp only [h1, h2, h3, h4, h8, h9, h10, List.isEmpty_iff]
  have hb : r.scoreBody = r'.scoreBody := by
    unfold scoreBody durationStep durationBonus distanceStep distanceBonus violationStep
      accelStep brakeStep idealSpeedStep avgSpeedStep maxSpeedStep
    rw [h1, h2, h3, h4, h5, h6, h7]
  refine ⟨hv, ?_⟩
  unfold CalculateDrivingScore
  rw [hv, hb]

theorem score_depends_on_metrics_only_witness :
    steadyRecord.IsValid =
        ({ steadyRecord with
            latitude := -235505199, longitude := -466333094, routeHash := 77,
            driverPubKeyHash := 12345, sessionStart := 1732060800,
            signature := [48, 69, 2, 33] } : CDrivingData).IsValid ∧
      steadyRecord.CalculateDrivingScore =
        ({ steadyRecord with
            latitude := -235505199, longitude := -466333094, routeHash := 77,
            driverPubKeyHash := 12345, sessionStart := 1732060800,
            signature := [48, 69, 2, 33] } : CDrivingData).CalculateDrivingScore :=
  score_depends_on_metrics_only steadyRecord _ rfl rfl rfl rfl rfl rfl rfl (by decide)
    (by decide) (by decide)

/-- C25: every record of the declared field types that `IsValid` accepts has a
score of at least 20, and `CalculateDrivingScore` returns 0 if and only if
`IsValid` returns false. -/
theorem score_zero_iff_invalid (r : CDrivingData) (hr : r.InRange) :
    (r.IsValid = some true → ∃ s, r.CalculateDrivingScore = some s ∧ 20 ≤ s) ∧
    (r.CalculateDrivingScore = some 0 ↔ r.IsValid = some false) := by
  have key : r.IsValid = some true → 20 ≤ r.scoreBody := by
    intro hv
    obtain ⟨-, h1, h2, -⟩ := (isValid_eq_true_iff r).1 hv
    exact scoreBody_ge_twenty r hr h1 h2
  constructor
  · intro hv
    exact ⟨r.scoreBody, by rw [calculateDrivingScore_of_isValid r true hv]; rfl, key hv⟩
  · cases hv : r.IsValid with
    | none =>
      unfold CalculateDrivingScore
      rw [hv]
      simp
    | some b =>
      rw [calculateDrivingScore_of_isValid r b hv]
      cases b
      · simp
      · have := key hv
        simp only [if_true, Option.some.injEq]
        constructor
        · intro h0
          omega
        · intro h0
          cases h0

theorem score_zero_iff_invalid_witness :
    (∃ s, floorRecord.CalculateDrivingScore = some s ∧ 20 ≤ s) ∧
      (scenarioA.CalculateDrivingScore = some 0 ↔ scenarioA.IsValid = some false) :=
  ⟨(score_zero_iff_invalid floorRecord (by decide)).1 (by decide),
    (score_zero_iff_invalid scenarioA (by decide)).2⟩

/-- C26: for every record of the declared field types and every params, if
`CheckProofOfSafeDriving` returns true then `IsValid` returns true, so that
`distance >= 1000`, `duration >= 120` and the speed sanity check hold whatever
the params allow, and the score of the record is not zero. -/
theorem checkProofOfSafeDriving_subsumes_isValid (r : CDrivingData) (p : SafeDrivingParams)
    (hr : r.InRange) (h : CheckProofOfSafeDriving r p = some true) :
    r.IsValid = some true ∧ r.distance ≥ 1000 ∧ r.duration ≥ 120 ∧
      r.avgSpeed * 8 / 10 ≤ mul32 r.distance 36 / mul32 r.duration 10 ∧
      mul32 r.distance 36 / mul32 r.duration 10 ≤ r.avgSpeed * 12 / 10 ∧
      ∃ s, r.CalculateDrivingScore = some s ∧ s ≠ 0 := by
  have hv := ((checkProofOfSafeDriving_eq_true_iff r p).1 h).1
  obtain ⟨-, h1, h2, -, -, -, -, -, -, h9, h10⟩ := (isValid_eq_true_iff r).1 hv
  refine ⟨hv, h1, h2, h9, h10, r.scoreBody, ?_, ?_⟩
  · rw [calculateDrivingScore_of_isValid r true hv]
    rfl
  · have := scoreBody_ge_twenty r hr h1 h2
    omega

theorem checkProofOfSafeDriving_subsumes_isValid_witness :
    floorRecord.IsValid = some true ∧
      ∃ s, floorRecord.CalculateDrivingScore = some s ∧ s ≠ 0 :=
  have h := checkProofOfSafeDriving_subsumes_isValid floorRecord
    { defaultParams with minDistance := 0, minDuration := 0, maxSpeedLimit := 65535 }
    (by decide) (by decide)
  ⟨h.1, h.2.2.2.2.2⟩

/-- C27: under the default `SafeDrivingParams`, every record of the declared
field types that `CheckProofOfSafeDriving` accepts scores at least 845, and
`floorRecord` is accepted and scores exactly 845. -/
theorem default_accepted_score_ge_845 :
    (∀ r : CDrivingData, r.InRange → CheckProofOfSafeDriving r defaultParams = some true →
      ∃ s, r.CalculateDrivingScore = some s ∧ 845 ≤ s) ∧
    ∃ r : CDrivingData, r.InRange ∧ CheckProofOfSafeDriving r defaultParams = some true ∧
      r.CalculateDrivingScore = some 845 := by
  refine ⟨fun r hr h => ?_, floorRecord, by decide, by decide, by decide⟩
  obtain ⟨hv, -, -, h3, h4, h5, h6⟩ := (checkProofOfSafeDriving_eq_true_iff r defaultParams).1 h
  obtain ⟨-, h1, h2, -, -, -, -, h7, -⟩ := (isValid_eq_true_iff r).1 hv
  have h3' : r.maxSpeed ≤ 800 := h3
  have h4' : r.hardBrakes ≤ 5 := h4
  have h5' : r.hardAccel ≤ 5 := h5
  have h6' : r.speedViolations ≤ 0 := h6
  refine ⟨r.scoreBody, ?_, scoreBody_ge_845 r hr h1 h2 h3' (by omega) h4' h5' (by omega)⟩
  rw [calculateDrivingScore_of_isValid r true hv]
  rfl

theorem default_accepted_score_ge_845_witness :
    ∃ s, steadyRecord.CalculateDrivingScore = some s ∧ 845 ≤ s :=
  default_accepted_score_ge_845.1 steadyRecord (by decide) (by decide)

/-! ## Lemmas on the divisors of the retarget -/

/-- A defined signed 64-bit result is the exact value, which fits. -/
theorem i64_eq_some_iff (x y : Int) :
    i64 x = some y ↔ (-(2 : Int) ^ 63 ≤ x ∧ x < 2 ^ 63) ∧ y = x := by
  unfold i64
  split_ifs with h
  · simp only [Option.some.injEq, h, true_and]
    exact eq_comm
  · constructor
    · intro hc
      cases hc
    · rintro ⟨hc, -⟩
      exact absurd hc h

/-- A quotient does not increase with its positive divisor. -/
theorem ediv_antitone (x a b : Int) (hx : 0 ≤ x) (ha : 0 < a) (hab : a ≤ b) :
    x / b ≤ x / a := by
  apply Int.le_ediv_of_mul_le ha
  have h1 : 0 ≤ x / b := Int.ediv_nonneg hx (by omega)
  have h2 : x / b * b ≤ x := Int.ediv_mul_le x (by omega)
  nlinarith

/-- `CalculateNextRequiredDrivingScore` computes the clamped timespan first, then
divides by it or by `slowAdjustment`, then clamps the score. -/
theorem calculateNext_decompose (pindexLast : CBlockIndex) (nFirstBlockTime : Int)
    (params : SafeDrivingParams) :
    CalculateNextRequiredDrivingScore pindexLast nFirstBlockTime params =
      (clampedActualTimespan pindexLast nFirstBlockTime params).bind fun p =>
        ((if p.1 < p.2 then
            (i64 (p.2 * 100)).bind fun scaled =>
              (div64 scaled p.1).bind fun ratio => some (mul32 500 (toU32 ratio) / 100)
          else (slowAdjustment p.1 p.2).bind fun adjustment =>
            div32 (mul32 500 100) adjustment).bind fun newRequiredScore =>
          some (if (if newRequiredScore < 200 then 200 else newRequiredScore) > 900 then 900
            else (if newRequiredScore < 200 then 200 else newRequiredScore))) := by
  unfold CalculateNextRequiredDrivingScore clampedActualTimespan slowAdjustment
  simp only [Option.bind_eq_bind, Option.pure_def]
  cases i64 (pindexLast.GetBlockTime - nFirstBlockTime) with
  | none => rfl
  | some d =>
    cases i64 (params.targetBlockSpacing * params.difficultyAdjustmentInterval) with
    | none => rfl
    | some T =>
      simp only [Option.some_bind]
      cases div64 T 4 with
      | none => rfl
      | some q =>
        simp only [Option.some_bind]
        cases i64 (T * 4) with
        | none => rfl
        | some f =>
          simp only [Option.some_bind]
          split_ifs <;> simp [Option.bind_assoc]


/-- What a result of `clampedActualTimespan` says about its arguments. -/
theorem clampedActualTimespan_eq_some (pindexLast : CBlockIndex) (nFirstBlockTime : Int)
    (params : SafeDrivingParams) (a T : Int)
    (h : clampedActualTimespan pindexLast nFirstBlockTime params = some (a, T))
    (h1 : 1 ≤ params.targetBlockSpacing * params.difficultyAdjustmentInterval) :
    T = params.targetBlockSpacing * params.difficultyAdjustmentInterval ∧
      T * 4 < 2 ^ 63 ∧
      (-(2 : Int) ^ 63 ≤ pindexLast.GetBlockTime - nFirstBlockTime ∧
        pindexLast.GetBlockTime - nFirstBlockTime < 2 ^ 63) ∧
      a = clampedTimespan T (pindexLast.GetBlockTime - nFirstBlockTime) := by
  unfold clampedActualTimespan at h
  simp only [Option.bind_eq_bind, Option.pure_def, Option.bind_eq_some] at h
  obtain ⟨d, hd, T', hT, q, hq, f, hf, he⟩ := h
  obtain ⟨hdf, rfl⟩ := (i64_eq_some_iff _ _).1 hd
  obtain ⟨hTf, rfl⟩ := (i64_eq_some_iff _ _).1 hT
  obtain ⟨hff, rfl⟩ := (i64_eq_some_iff _ _).1 hf
  rw [div64_of_nonneg (by omega) (by omega) (by omega)] at hq
  cases hq
  simp only [Option.some.injEq, Prod.mk.injEq] at he
  obtain ⟨ha, rfl⟩ := he
  refine ⟨rfl, hff.2, hdf, ?_⟩
  rw [← ha]
  unfold clampedTimespan clamp
  rw [Int.tdiv_eq_ediv (by omega) (by omega)]
  split_ifs <;> omega


/-- A defined `slowAdjustment` between a positive target and four times it is
the exact ratio, between 100 and 400. -/
theorem slowAdjustment_eq_some (a T : Int) (adj : Nat) (h : slowAdjustment a T = some adj)
    (h1 : 1 ≤ T) (hle : T ≤ a) (hhi : a ≤ T * 4) :
    a * 100 < 2 ^ 63 ∧ 100 ≤ adj ∧ adj ≤ 400 := by
  unfold slowAdjustment at h
  simp only [Option.bind_eq_bind, Option.pure_def, Option.bind_eq_some] at h
  obtain ⟨scaled, hs, ratio, hr, he⟩ := h
  obtain ⟨hsf, rfl⟩ := (i64_eq_some_iff _ _).1 hs
  rw [div64_of_nonneg (by omega) (by omega) (by omega)] at hr
  cases hr
  obtain ⟨q1, q2⟩ := slow_ratio_bounds T a h1 hhi hle
  simp only [Option.some.injEq] at he
  rw [← he]
  unfold toU32
  omega

/-- A call of `CalculateNextRequiredDrivingScore` that returns has formed no
product that overflows. -/
theorem calculateNext_defined (pindexLast : CBlockIndex) (nFirstBlockTime : Int)
    (params : SafeDrivingParams) (s : Nat)
    (h : CalculateNextRequiredDrivingScore pindexLast nFirstBlockTime params = some s)
    (h1 : 1 ≤ params.targetBlockSpacing * params.difficultyAdjustmentInterval) :
    params.targetBlockSpacing * params.difficultyAdjustmentInterval * 100 < 2 ^ 63 ∧
      clampedTimespan (params.targetBlockSpacing * params.difficultyAdjustmentInterval)
        (pindexLast.GetBlockTime - nFirstBlockTime) * 100 < 2 ^ 63 ∧
      -(2 : Int) ^ 63 ≤ pindexLast.GetBlockTime - nFirstBlockTime ∧
      pindexLast.GetBlockTime - nFirstBlockTime < 2 ^ 63 := by
  rw [calculateNext_decompose] at h
  simp only [Option.bind_eq_some] at h
  obtain ⟨⟨a, T⟩, hc, n, hn, -⟩ := h
  obtain ⟨rfl, hT4, hd, ha⟩ := clampedActualTimespan_eq_some _ _ _ a T hc h1
  obtain ⟨hlo, hhi, -⟩ := clampedTimespan_bounds
    (params.targetBlockSpacing * params.difficultyAdjustmentInterval)
    (pindexLast.GetBlockTime - nFirstBlockTime) h1
  rw [← ha] at hlo hhi ⊢
  simp only [] at hn
  by_cases hlt : a < params.targetBlockSpacing * params.difficultyAdjustmentInterval
  · rw [if_pos hlt] at hn
    simp only [Option.bind_eq_some] at hn
    obtain ⟨scaled, hs, -⟩ := hn
    obtain ⟨hsf, -⟩ := (i64_eq_some_iff _ _).1 hs
    exact ⟨hsf.2, by omega, hd.1, hd.2⟩
  · rw [if_neg hlt] at hn
    simp only [Option.bind_eq_some] at hn
    obtain ⟨adj, hadj, -⟩ := hn
    obtain ⟨hb, -⟩ := slowAdjustment_eq_some a _ adj hadj h1 (by omega) hhi
    exact ⟨by omega, hb, hd.1, hd.2⟩

/-- The value of the specification does not increase with the actual timespan. -/
theorem specNextRequiredScore_antitone (T d1 d2 : Int) (hT : 4 ≤ T) (hd : d1 ≤ d2) :
    specNextRequiredScore T d2 ≤ specNextRequiredScore T d1 := by
  by_cases h1 : d1 < T
  · by_cases h2 : d2 < T
    · obtain ⟨lo1, -, f1, -, p1⟩ := clampedTimespan_bounds T d1 (by omega)
      obtain ⟨lo2, -, f2, -, p2⟩ := clampedTimespan_bounds T d2 (by omega)
      have hle : clampedTimespan T d1 ≤ clampedTimespan T d2 := by
        unfold clampedTimespan clamp
        omega
      have a1 := f1 h1
      have a2 := f2 h2
      have q1 := p1 (Or.inl hT)
      have q2 := p2 (Or.inl hT)
      unfold specNextRequiredScore
      simp only []
      generalize clampedTimespan T d1 = x at *
      generalize clampedTimespan T d2 = y at *
      rw [if_pos a1, if_pos a2, Int.tdiv_eq_ediv (a := T * 100) (by omega) (by omega),
        Int.tdiv_eq_ediv (a := T * 100) (by omega) (by omega)]
      have hq := ediv_antitone (T * 100) x y (by omega) (by omega) hle
      have hq0 : 0 ≤ T * 100 / y := Int.ediv_nonneg (by omega) (by omega)
      generalize T * 100 / x = u at hq ⊢
      generalize T * 100 / y = v at hq hq0 ⊢
      rw [Int.tdiv_eq_ediv (by omega) (by omega), Int.tdiv_eq_ediv (by omega) (by omega)]
      unfold clamp
      omega
    · have := specNextRequiredScore_fast T d1 (by omega) (Or.inl hT) h1
      have := specNextRequiredScore_slow T d2 (by omega) (by omega)
      omega
  · obtain ⟨-, hi1, -, s1, -⟩ := clampedTimespan_bounds T d1 (by omega)
    obtain ⟨-, hi2, -, s2, -⟩ := clampedTimespan_bounds T d2 (by omega)
    have hle : clampedTimespan T d1 ≤ clampedTimespan T d2 := by
      unfold clampedTimespan clamp
      omega
    have a1 := s1 (by omega)
    have a2 := s2 (by omega)
    unfold specNextRequiredScore
    simp only []
    generalize clampedTimespan T d1 = x at *
    generalize clampedTimespan T d2 = y at *
    obtain ⟨u1, u2⟩ := slow_ratio_bounds T x (by omega) hi1 a1
    obtain ⟨v1, v2⟩ := slow_ratio_bounds T y (by omega) hi2 a2
    have hq : x * 100 / T ≤ y * 100 / T := Int.ediv_le_ediv (by omega) (by omega)
    rw [if_neg (by omega), if_neg (by omega),
      Int.tdiv_eq_ediv (a := x * 100) (by omega) (by omega),
      Int.tdiv_eq_ediv (a := y * 100) (by omega) (by omega)]
    generalize x * 100 / T = u at hq u1 u2 ⊢
    generalize y * 100 / T = v at hq v1 v2 ⊢
    rw [Int.tdiv_eq_ediv (by omega) (by omega), Int.tdiv_eq_ediv (by omega) (by omega)]
    have hr := ediv_antitone (500 * 100) u v (by omega) (by omega) hq
    unfold clamp
    omega


/-! ## Further properties of the retarget -/

/-- C28: for params with a target timespan of at least 4, if the actual
timespan of a first call is at most that of a second call, then whenever both
calls of `CalculateNextRequiredDrivingScore` return, the score of the first is
at least the score of the second; and both calls do return when `T*100` and 100
times the clamped timespans fit in 64 bits and so do the two differences of
times. -/
theorem calculateNextRequiredDrivingScore_antitone (pindexLast pindexLast' : CBlockIndex)
    (nFirstBlockTime nFirstBlockTime' : Int) (params : SafeDrivingParams)
    (hT : 4 ≤ params.targetBlockSpacing * params.difficultyAdjustmentInterval)
    (hd : pindexLast.GetBlockTime - nFirstBlockTime ≤
      pindexLast'.GetBlockTime - nFirstBlockTime') :
    (∀ s s', CalculateNextRequiredDrivingScore pindexLast nFirstBlockTime params = some s →
      CalculateNextRequiredDrivingScore pindexLast' nFirstBlockTime' params = some s' →
      s' ≤ s) ∧
    (params.targetBlockSpacing * params.difficultyAdjustmentInterval * 100 < 2 ^ 63 →
      -(2 : Int) ^ 63 ≤ pindexLast.GetBlockTime - nFirstBlockTime →
      pindexLast'.GetBlockTime - nFirstBlockTime' < 2 ^ 63 →
      clampedTimespan (params.targetBlockSpacing * params.difficultyAdjustmentInterval)
        (pindexLast'.GetBlockTime - nFirstBlockTime') * 100 < 2 ^ 63 →
      ∃ s s', CalculateNextRequiredDrivingScore pindexLast nFirstBlockTime params = some s ∧
        CalculateNextRequiredDrivingScore pindexLast' nFirstBlockTime' params = some s' ∧
        s' ≤ s) := by
  have key : ∀ s s',
      CalculateNextRequiredDrivingScore pindexLast nFirstBlockTime params = some s →
      CalculateNextRequiredDrivingScore pindexLast' nFirstBlockTime' params = some s' →
      s' ≤ s := by
    intro s s' hs hs'
    obtain ⟨b1, b2, b3, b4⟩ := calculateNext_defined _ _ _ s hs (by omega)
    obtain ⟨c1, c2, c3, c4⟩ := calculateNext_defined _ _ _ s' hs' (by omega)
    obtain ⟨t, ht, he⟩ := calculateNext_eq_spec pindexLast nFirstBlockTime params _ _ rfl rfl
      (by omega) b1 b2 b3 b4 (Or.inl hT)
    obtain ⟨t', ht', he'⟩ := calculateNext_eq_spec pindexLast' nFirstBlockTime' params _ _
      rfl rfl (by omega) c1 c2 c3 c4 (Or.inl hT)
    rw [hs] at ht
    rw [hs'] at ht'
    cases ht
    cases ht'
    have := specNextRequiredScore_antitone _ _ _ hT hd
    omega
  refine ⟨key, fun hB hlo hhi hA => ?_⟩
  have hle : clampedTimespan (params.targetBlockSpacing * params.difficultyAdjustmentInterval)
      (pindexLast.GetBlockTime - nFirstBlockTime) ≤
      clampedTimespan (params.targetBlockSpacing * params.difficultyAdjustmentInterval)
        (pindexLast'.GetBlockTime - nFirstBlockTime') := by
    unfold clampedTimespan clamp
    omega
  obtain ⟨s, hs, -⟩ := calculateNext_eq_spec pindexLast nFirstBlockTime params _ _ rfl rfl
    (by omega) hB (by omega) hlo (by omega) (Or.inl hT)
  obtain ⟨s', hs', -⟩ := calculateNext_eq_spec pindexLast' nFirstBlockTime' params _ _ rfl rfl
    (by omega) hB hA (by omega) hhi (Or.inl hT)
  exact ⟨s, s', hs, hs', key s s' hs hs'⟩

theorem calculateNextRequiredDrivingScore_antitone_witness :
    ∃ s s', CalculateNextRequiredDrivingScore (mkIndex 2015 500000) 0 defaultParams = some s ∧
      CalculateNextRequiredDrivingScore (mkIndex 2015 700000) 0 defaultParams = some s' ∧
      s' ≤ s :=
  (calculateNextRequiredDrivingScore_antitone (mkIndex 2015 500000) (mkIndex 2015 700000) 0 0
    defaultParams (by decide) (by decide)).2 (by decide) (by decide) (by decide) (by decide)

/-- With a target timespan of 3 and an actual timespan of 0 the code divides by
a clamped timespan of 0 and has no result. -/
theorem calculateNext_tinyParams :
    clampedActualTimespan (mkIndex 0 0) 0 tinyParams = some (0, 3) ∧
      CalculateNextRequiredDrivingScore (mkIndex 0 0) 0 tinyParams = none := by
  decide

/-- C29, as stated, fails: with `targetBlockSpacing = 3` and
`difficultyAdjustmentInterval = 1`, both positive, and equal tip and first-block
times, the clamped actual timespan is 0, below the target 3, and is the divisor
of line 182. -/
theorem retarget_divides_by_zero :
    ¬ ∀ (pindexLast : CBlockIndex) (nFirstBlockTime : Int) (params : SafeDrivingParams),
        0 < params.targetBlockSpacing → 0 < params.difficultyAdjustmentInterval →
        ∀ a T, clampedActualTimespan pindexLast nFirstBlockTime params = some (a, T) →
          (a < T → a ≠ 0) ∧
          (¬ a < T → ∀ adjustment, slowAdjustment a T = some adjustment → adjustment ≠ 0) := by
  intro h
  exact (h (mkIndex 0 0) 0 tinyParams (by decide) (by decide) 0 3 (by decide)).1 (by decide) rfl

/-- C29, amended: for every params with `targetBlockSpacing > 0` and
`difficultyAdjustmentInterval > 0` and every tip time and first-block time such
that the target timespan is at least 4 or the actual timespan is at least 1,
neither division of `CalculateNextRequiredDrivingScore` is a division by zero:
whenever it is reached, the clamped actual timespan is at least 1, and the
adjustment of the other branch is between 100 and 400. -/
theorem retarget_divisors_ne_zero (pindexLast : CBlockIndex) (nFirstBlockTime : Int)
    (params : SafeDrivingParams) (hs : 0 < params.targetBlockSpacing)
    (hi : 0 < params.difficultyAdjustmentInterval)
    (h4 : 4 ≤ params.targetBlockSpacing * params.difficultyAdjustmentInterval ∨
      1 ≤ pindexLast.GetBlockTime - nFirstBlockTime)
    (a T : Int) (hc : clampedActualTimespan pindexLast nFirstBlockTime params = some (a, T)) :
    (a < T → a ≠ 0 ∧ 1 ≤ a) ∧
    (¬ a < T → ∀ adjustment, slowAdjustment a T = some adjustment →
      adjustment ≠ 0 ∧ 100 ≤ adjustment ∧ adjustment ≤ 400) := by
  have hpos : 0 < params.targetBlockSpacing * params.difficultyAdjustmentInterval :=
    Int.mul_pos hs hi
  obtain ⟨rfl, -, -, ha⟩ := clampedActualTimespan_eq_some _ _ _ a T hc (by omega)
  obtain ⟨-, hhi, -, -, hp⟩ := clampedTimespan_bounds
    (params.targetBlockSpacing * params.difficultyAdjustmentInterval)
    (pindexLast.GetBlockTime - nFirstBlockTime) (by omega)
  have hp := hp h4
  rw [← ha] at hhi hp
  constructor
  · intro _
    exact ⟨by omega, hp⟩
  · intro hlt adjustment hadj
    obtain ⟨-, b1, b2⟩ := slowAdjustment_eq_some a _ adjustment hadj (by omega) (by omega) hhi
    exact ⟨by omega, b1, b2⟩

theorem retarget_divisors_ne_zero_witness :
    clampedActualTimespan (mkIndex 2015 700000) 0 defaultParams = some (700000, 604800) ∧
      slowAdjustment 700000 604800 = some 115 ∧ (115 : Nat) ≠ 0 :=
  ⟨by decide, by decide,
    ((retarget_divisors_ne_zero (mkIndex 2015 700000) 0 defaultParams (by decide) (by decide)
      (Or.inl (by decide)) 700000 604800 (by decide)).2 (by decide) 115 (by decide)).1⟩

end CargoCoin
